import Mathlib

/-!
# mirrorfs: a shallow embedding of `mirrorfs.c`

`mirrorfs.c` is a FUSE filesystem that runs every operation against two
backing directory trees (anchored at `mntfd1` and `mntfd2`) and compares the
two results.  The callbacks are embedded as state-passing functions over

* an abstract operating system `K : Kernel σ`, which answers every system
  call with an observation (return value, error code, payload) and a new
  operating-system state, and
* the process state `Proc σ`: `errno`, the table `mirror_fds`, the
  `fuse_file_info` record handed to `open`/`create`, the list of system calls
  performed so far and the lines written to `stderr`.

A callback either returns (`Outcome.ret`), ends the process through `abort()`
or a failed `assert` (`Outcome.abort`), or indexes `mirror_fds` outside its
1024 slots (`Outcome.fault`, undefined behaviour in C).
-/

namespace Mirrorfs

/-! ## Data model -/

/-- C strings and `char` buffers, as lists of characters (without the NUL). -/
abbrev CStr := List Char

/-- The fields of `struct stat`; `pad` stands for the padding bytes of the
record, which `memcmp` reads as well. -/
structure Stat where
  st_dev : Nat
  st_ino : Nat
  st_mode : Nat
  st_nlink : Nat
  st_uid : Nat
  st_gid : Nat
  st_rdev : Nat
  st_size : Int
  st_blksize : Int
  st_blocks : Int
  st_atim : Int × Int
  st_mtim : Int × Int
  st_ctim : Int × Int
  pad : List Nat
deriving DecidableEq, Repr

/-- The record after `memset(&stbuf2, 0, sizeof(stbuf2))`. -/
def Stat.zero : Stat :=
  { st_dev := 0, st_ino := 0, st_mode := 0, st_nlink := 0, st_uid := 0,
    st_gid := 0, st_rdev := 0, st_size := 0, st_blksize := 0, st_blocks := 0,
    st_atim := (0, 0), st_mtim := (0, 0), st_ctim := (0, 0), pad := [] }

/-- The two fields of `struct fuse_file_info` the program uses. -/
structure FuseFileInfo where
  flags : Int
  fh : Nat
deriving DecidableEq, Repr

/-- The system calls the modelled callbacks perform, with their arguments. -/
inductive Syscall where
  | fstatat (dirfd : Int) (path : CStr) (flags : Int)
  | faccessat (dirfd : Int) (path : CStr) (mode : Int) (flags : Int)
  | readlinkat (dirfd : Int) (path : CStr) (bufsiz : Nat)
  | mkdirat (dirfd : Int) (path : CStr) (mode : Nat)
  | unlinkat (dirfd : Int) (path : CStr) (flags : Int)
  | symlinkat (target : CStr) (newdirfd : Int) (linkpath : CStr)
  | renameat (olddirfd : Int) (oldpath : CStr) (newdirfd : Int) (newpath : CStr)
  | linkat (olddirfd : Int) (oldpath : CStr) (newdirfd : Int) (newpath : CStr)
      (flags : Int)
  | fchmodat (dirfd : Int) (path : CStr) (mode : Nat) (flags : Int)
  | fchownat (dirfd : Int) (path : CStr) (uid : Nat) (gid : Nat) (flags : Int)
  | utimensat (dirfd : Int) (path : CStr) (ts : (Int × Int) × (Int × Int))
      (flags : Int)
  | openat (dirfd : Int) (path : CStr) (flags : Int) (mode : Option Nat)
  | pread (fd : Int) (count : Nat) (offset : Int)
  | pwrite (fd : Int) (buf : CStr) (count : Nat) (offset : Int)
  | close (fd : Int)
deriving DecidableEq, Repr

/-- What one system call is observed to do: its return value `res`, the error
code `err` it stores in `errno` (0 when it stores none), and the payload it
writes through its output pointer (`st` for `fstatat`, `data` for
`readlinkat` and `pread`). -/
structure Obs where
  res : Int
  err : Int
  st : Stat := Stat.zero
  data : CStr := []
deriving DecidableEq, Repr

/-- The operating system below the program: every call yields an observation
and the next operating-system state. -/
abbrev Kernel (σ : Type) := Syscall → σ → Obs × σ

/-- The globals that are fixed once the handlers run.  The source initialises
`abort_on_difference` and `log_operations` to 1 and never assigns them. -/
structure Globals where
  abort_on_difference : Int := 1
  log_operations : Int := 1
  mntfd1 : Int
  mntfd2 : Int
deriving DecidableEq, Repr

/-- The mutable state of the process. -/
structure Proc (σ : Type) where
  os : σ
  errno : Int
  mirror_fds : List Int
  fi : FuseFileInfo
  trace : List Syscall
  log : List String

/-- How a callback ends. -/
inductive Outcome (α : Type) where
  | ret (v : α)
  | abort
  | fault
deriving DecidableEq, Repr

/-- State-passing computations that may end the process. -/
def M (σ α : Type) := Proc σ → Outcome α × Proc σ

/-- Sequencing: a computation that aborted or faulted stops there. -/
def M.bind {σ α β : Type} (m : M σ α) (f : α → M σ β) : M σ β := fun p =>
  match m p with
  | (Outcome.ret a, q) => f a q
  | (Outcome.abort, q) => (Outcome.abort, q)
  | (Outcome.fault, q) => (Outcome.fault, q)

instance {σ : Type} : Monad (M σ) where
  pure a := fun p => (Outcome.ret a, p)
  bind := M.bind

/-! ## Constants of the system headers -/

/-- The value of `EINVAL` in the Linux `errno.h`. -/
def EINVAL : Int := 22
/-- The value of `AT_REMOVEDIR` in the Linux `fcntl.h`. -/
def AT_REMOVEDIR : Int := 0x200
/-- The value of `AT_SYMLINK_NOFOLLOW` in the Linux `fcntl.h`. -/
def AT_SYMLINK_NOFOLLOW : Int := 0x100
/-- The value of `O_RDONLY` in the Linux `fcntl.h`. -/
def O_RDONLY : Int := 0
/-- The value of `O_WRONLY` in the Linux `fcntl.h`. -/
def O_WRONLY : Int := 1
/-- The mask `S_IFMT` of the file-type bits of `st_mode`. -/
def S_IFMT : Nat := 0o170000
/-- The file type `S_IFDIR` of a directory. -/
def S_IFDIR : Nat := 0o040000
/-- The macro `S_ISDIR` of `sys/stat.h`. -/
def S_ISDIR (m : Nat) : Bool := (m &&& S_IFMT) == S_IFDIR

/-- The number of slots of `mirror_fds`. -/
def MIRROR_FDS_LEN : Nat := 1024

/-! ## Integer conversions -/

/-- Conversion of an integer value to the 64-bit `long` of the comparison
macro. -/
def toLong (x : Int) : Int := (x + 2 ^ 63) % 2 ^ 64 - 2 ^ 63

/-- Conversion of an `int` to the `uint64_t` field `fi->fh`. -/
def toU64 (x : Int) : Nat := (x % 2 ^ 64).toNat

/-- Conversion of the `uint64_t` field `fi->fh` to an `int`. -/
def toInt32 (n : Nat) : Int := ((n : Int) + 2 ^ 31) % 2 ^ 32 - 2 ^ 31

/-! ## Primitive steps -/

/-- Read `errno`. -/
def getErrno {σ : Type} : M σ Int := fun p => (Outcome.ret p.errno, p)

/-- The assignment `errno = v`. -/
def setErrno {σ : Type} (v : Int) : M σ Unit := fun p =>
  (Outcome.ret (), { p with errno := v })

/-- Perform one system call: the kernel answers, the call is recorded, and
`errno` takes the error code of the call when it stored one. -/
def call {σ : Type} (K : Kernel σ) (c : Syscall) : M σ Obs := fun p =>
  let r := K c p.os
  (Outcome.ret r.1,
    { p with os := r.2,
             errno := if r.1.err = 0 then p.errno else r.1.err,
             trace := p.trace ++ [c] })

/-- The call `abort()`. -/
def abort {σ α : Type} : M σ α := fun p => (Outcome.abort, p)

/-- A line on `stderr`, recorded by the name of the function that wrote it;
writing it is taken to leave `errno` alone. -/
def fprintf_stderr {σ : Type} (func : String) : M σ Unit := fun p =>
  (Outcome.ret (), { p with log := p.log ++ [func] })

/-- The macro `LOG_FUSE_OPERATION`. -/
def LOG_FUSE_OPERATION {σ : Type} (g : Globals) (func : String) : M σ Unit :=
  if g.log_operations ≠ 0 then fprintf_stderr func else pure ()

/-- The macro `ABORT_IF_NOT_EQUAL`, on the two values as converted to
`long`. -/
def ABORT_IF_NOT_EQUAL {σ : Type} (g : Globals) (func : String) (x y : Int) :
    M σ Unit :=
  if x ≠ y then do
    fprintf_stderr func
    if g.abort_on_difference ≠ 0 then abort else pure ()
  else pure ()

/-- The macro `ABORT_IF_INCONSISTENT_FD`. -/
def ABORT_IF_INCONSISTENT_FD {σ : Type} (func : String) (fd1 fd2 : Int) :
    M σ Unit :=
  if xor (decide (fd1 = -1)) (decide (fd2 = -1)) then do
    fprintf_stderr func
    abort
  else pure ()

/-- Read slot `i` of `mirror_fds`; an index outside the array is a fault. -/
def readSlot {σ : Type} (i : Nat) : M σ Int := fun p =>
  match p.mirror_fds[i]? with
  | some v => (Outcome.ret v, p)
  | none => (Outcome.fault, p)

/-- The assignment `mirror_fds[i] = v`; an index outside the array is a
fault. -/
def writeSlot {σ : Type} (i : Nat) (v : Int) : M σ Unit := fun p =>
  if i < p.mirror_fds.length then
    (Outcome.ret (), { p with mirror_fds := p.mirror_fds.set i v })
  else (Outcome.fault, p)

/-- The assignment `fi->fh = v`. -/
def setFh {σ : Type} (v : Nat) : M σ Unit := fun p =>
  (Outcome.ret (), { p with fi := { p.fi with fh := v } })

/-- Read the record `*fi`. -/
def getFi {σ : Type} : M σ FuseFileInfo := fun p => (Outcome.ret p.fi, p)

/-- The macro `assert`. -/
def assert {σ : Type} (c : Bool) : M σ Unit :=
  if c then pure () else abort

/-! ## The program -/

/-- The function `safe_path`: `"."` for the root, otherwise the path past its
first character. -/
def safe_path (path : CStr) : CStr :=
  if path = ['/'] then ['.'] else path.tail

/-- A system call stores `data` at the start of the buffer `buf`. -/
def store (buf data : CStr) : CStr := data ++ buf.drop data.length

/-- The test `memcmp(a, b, n) != 0`, the count `n` converted to `size_t`. -/
def memcmp_ne (a b : CStr) (n : Int) : Bool :=
  decide (a.take (toU64 n) ≠ b.take (toU64 n))

/-- The table after `memset(mirror_fds, -1, sizeof(mirror_fds))` in `main`:
every `int` slot has all bits set, which is the value -1. -/
def initial_mirror_fds : List Int := List.replicate MIRROR_FDS_LEN (-1)

/-- The callback `mirrorfs_getattr`; `stbuf` is the content of the caller's
record on entry, and the record on return is part of the result. -/
def mirrorfs_getattr {σ : Type} (g : Globals) (K : Kernel σ) (path : CStr)
    (stbuf : Stat) : M σ (Int × Stat) := do
  LOG_FUSE_OPERATION g "mirrorfs_getattr"
  let stbuf2 := Stat.zero
  setErrno 0
  let o1 ← call K (Syscall.fstatat g.mntfd1 (safe_path path) AT_SYMLINK_NOFOLLOW)
  let stbuf := if o1.res = 0 then o1.st else stbuf
  let res1 := o1.res
  let errno1 ← getErrno
  setErrno 0
  let o2 ← call K (Syscall.fstatat g.mntfd2 (safe_path path) AT_SYMLINK_NOFOLLOW)
  let stbuf2 := if o2.res = 0 then o2.st else stbuf2
  let res2 := o2.res
  let errno2 ← getErrno
  ABORT_IF_NOT_EQUAL g "mirrorfs_getattr" res1 res2
  ABORT_IF_NOT_EQUAL g "mirrorfs_getattr" errno1 errno2
  if res1 = -1 then
    return (-(← getErrno), stbuf)
  if stbuf ≠ stbuf2 then
    ABORT_IF_NOT_EQUAL g "mirrorfs_getattr" (toLong stbuf.st_mode) (toLong stbuf2.st_mode)
    ABORT_IF_NOT_EQUAL g "mirrorfs_getattr" (toLong stbuf.st_nlink) (toLong stbuf2.st_nlink)
    ABORT_IF_NOT_EQUAL g "mirrorfs_getattr" (toLong stbuf.st_uid) (toLong stbuf2.st_uid)
    ABORT_IF_NOT_EQUAL g "mirrorfs_getattr" (toLong stbuf.st_gid) (toLong stbuf2.st_gid)
    if !S_ISDIR stbuf.st_mode then
      ABORT_IF_NOT_EQUAL g "mirrorfs_getattr" (toLong stbuf.st_size) (toLong stbuf2.st_size)
  return (0, stbuf)

/-- The callback `mirrorfs_access`. -/
def mirrorfs_access {σ : Type} (g : Globals) (K : Kernel σ) (path : CStr)
    (mask : Int) : M σ Int := do
  LOG_FUSE_OPERATION g "mirrorfs_access"
  setErrno 0
  let o1 ← call K (Syscall.faccessat g.mntfd1 (safe_path path) mask 0)
  let res1 := o1.res
  let errno1 ← getErrno
  setErrno 0
  let o2 ← call K (Syscall.faccessat g.mntfd2 (safe_path path) mask 0)
  let res2 := o2.res
  let errno2 ← getErrno
  ABORT_IF_NOT_EQUAL g "mirrorfs_access" res1 res2
  ABORT_IF_NOT_EQUAL g "mirrorfs_access" errno1 errno2
  if res1 = -1 then
    return -(← getErrno)
  return 0

/-- The callback `mirrorfs_readlink`; both calls are handed the caller's
`buf`, and a call that succeeds stores its bytes there.  The length passed
down is `size - 1` in `size_t` arithmetic. -/
def mirrorfs_readlink {σ : Type} (g : Globals) (K : Kernel σ) (path : CStr)
    (buf : CStr) (size : Nat) : M σ (Int × CStr) := do
  LOG_FUSE_OPERATION g "mirrorfs_readlink"
  setErrno 0
  let o1 ← call K (Syscall.readlinkat g.mntfd1 (safe_path path)
    ((size + 2 ^ 64 - 1) % 2 ^ 64))
  let buf := if o1.res = -1 then buf else store buf o1.data
  let res1 := o1.res
  let errno1 ← getErrno
  setErrno 0
  let o2 ← call K (Syscall.readlinkat g.mntfd2 (safe_path path)
    ((size + 2 ^ 64 - 1) % 2 ^ 64))
  let buf := if o2.res = -1 then buf else store buf o2.data
  let res2 := o2.res
  let errno2 ← getErrno
  ABORT_IF_NOT_EQUAL g "mirrorfs_readlink" res1 res2
  ABORT_IF_NOT_EQUAL g "mirrorfs_readlink" errno1 errno2
  if res1 = -1 then
    return (-(← getErrno), buf)
  let buf := buf.set (toU64 res1) (Char.ofNat 0)
  return (0, buf)

/-- The callback `mirrorfs_mkdir`. -/
def mirrorfs_mkdir {σ : Type} (g : Globals) (K : Kernel σ) (path : CStr)
    (mode : Nat) : M σ Int := do
  LOG_FUSE_OPERATION g "mirrorfs_mkdir"
  setErrno 0
  let o1 ← call K (Syscall.mkdirat g.mntfd1 (safe_path path) mode)
  let res1 := o1.res
  let errno1 ← getErrno
  setErrno 0
  let o2 ← call K (Syscall.mkdirat g.mntfd2 (safe_path path) mode)
  let res2 := o2.res
  let errno2 ← getErrno
  ABORT_IF_NOT_EQUAL g "mirrorfs_mkdir" res1 res2
  ABORT_IF_NOT_EQUAL g "mirrorfs_mkdir" errno1 errno2
  if res1 = -1 then
    return -(← getErrno)
  return 0

/-- The callback `mirrorfs_unlink`. -/
def mirrorfs_unlink {σ : Type} (g : Globals) (K : Kernel σ) (path : CStr) :
    M σ Int := do
  LOG_FUSE_OPERATION g "mirrorfs_unlink"
  setErrno 0
  let o1 ← call K (Syscall.unlinkat g.mntfd1 (safe_path path) 0)
  let res1 := o1.res
  let errno1 ← getErrno
  setErrno 0
  let o2 ← call K (Syscall.unlinkat g.mntfd2 (safe_path path) 0)
  let res2 := o2.res
  let errno2 ← getErrno
  ABORT_IF_NOT_EQUAL g "mirrorfs_unlink" res1 res2
  ABORT_IF_NOT_EQUAL g "mirrorfs_unlink" errno1 errno2
  if res1 = -1 then
    return -(← getErrno)
  return 0

/-- The callback `mirrorfs_rmdir`; the source passes `path` itself to
`unlinkat`. -/
def mirrorfs_rmdir {σ : Type} (g : Globals) (K : Kernel σ) (path : CStr) :
    M σ Int := do
  LOG_FUSE_OPERATION g "mirrorfs_rmdir"
  setErrno 0
  let o1 ← call K (Syscall.unlinkat g.mntfd1 path AT_REMOVEDIR)
  let res1 := o1.res
  let errno1 ← getErrno
  setErrno 0
  let o2 ← call K (Syscall.unlinkat g.mntfd2 path AT_REMOVEDIR)
  let res2 := o2.res
  let errno2 ← getErrno
  ABORT_IF_NOT_EQUAL g "mirrorfs_rmdir" res1 res2
  ABORT_IF_NOT_EQUAL g "mirrorfs_rmdir" errno1 errno2
  if res1 = -1 then
    return -(← getErrno)
  return 0

/-- The callback `mirrorfs_symlink`. -/
def mirrorfs_symlink {σ : Type} (g : Globals) (K : Kernel σ) (from_ to_ : CStr) :
    M σ Int := do
  LOG_FUSE_OPERATION g "mirrorfs_symlink"
  setErrno 0
  let o1 ← call K (Syscall.symlinkat from_ g.mntfd1 (safe_path to_))
  let res1 := o1.res
  let errno1 ← getErrno
  setErrno 0
  let o2 ← call K (Syscall.symlinkat from_ g.mntfd2 (safe_path to_))
  let res2 := o2.res
  let errno2 ← getErrno
  ABORT_IF_NOT_EQUAL g "mirrorfs_symlink" res1 res2
  ABORT_IF_NOT_EQUAL g "mirrorfs_symlink" errno1 errno2
  if res1 = -1 then
    return -(← getErrno)
  return 0

/-- The callback `mirrorfs_rename`; `flags` is an `unsigned int`. -/
def mirrorfs_rename {σ : Type} (g : Globals) (K : Kernel σ) (from_ to_ : CStr)
    (flags : Nat) : M σ Int := do
  LOG_FUSE_OPERATION g "mirrorfs_rename"
  if flags ≠ 0 then
    return -EINVAL
  setErrno 0
  let o1 ← call K (Syscall.renameat g.mntfd1 (safe_path from_) g.mntfd1 (safe_path to_))
  let res1 := o1.res
  let errno1 ← getErrno
  setErrno 0
  let o2 ← call K (Syscall.renameat g.mntfd2 (safe_path from_) g.mntfd2 (safe_path to_))
  let res2 := o2.res
  let errno2 ← getErrno
  ABORT_IF_NOT_EQUAL g "mirrorfs_rename" res1 res2
  ABORT_IF_NOT_EQUAL g "mirrorfs_rename" errno1 errno2
  if res1 = -1 then
    return -(← getErrno)
  return 0

/-- The callback `mirrorfs_link`; the source passes `mntfd1` and the paths
`from` and `to` themselves to both `linkat` calls. -/
def mirrorfs_link {σ : Type} (g : Globals) (K : Kernel σ) (from_ to_ : CStr) :
    M σ Int := do
  LOG_FUSE_OPERATION g "mirrorfs_link"
  setErrno 0
  let o1 ← call K (Syscall.linkat g.mntfd1 from_ g.mntfd1 to_ 0)
  let res1 := o1.res
  let errno1 ← getErrno
  setErrno 0
  let o2 ← call K (Syscall.linkat g.mntfd1 from_ g.mntfd1 to_ 0)
  let res2 := o2.res
  let errno2 ← getErrno
  ABORT_IF_NOT_EQUAL g "mirrorfs_link" res1 res2
  ABORT_IF_NOT_EQUAL g "mirrorfs_link" errno1 errno2
  if res1 = -1 then
    return -(← getErrno)
  return 0

/-- The callback `mirrorfs_chmod`. -/
def mirrorfs_chmod {σ : Type} (g : Globals) (K : Kernel σ) (path : CStr)
    (mode : Nat) : M σ Int := do
  LOG_FUSE_OPERATION g "mirrorfs_chmod"
  setErrno 0
  let o1 ← call K (Syscall.fchmodat g.mntfd1 (safe_path path) mode 0)
  let res1 := o1.res
  let errno1 ← getErrno
  setErrno 0
  let o2 ← call K (Syscall.fchmodat g.mntfd2 (safe_path path) mode 0)
  let res2 := o2.res
  let errno2 ← getErrno
  ABORT_IF_NOT_EQUAL g "mirrorfs_chmod" res1 res2
  ABORT_IF_NOT_EQUAL g "mirrorfs_chmod" errno1 errno2
  if res1 = -1 then
    return -(← getErrno)
  return 0

/-- The callback `mirrorfs_chown`. -/
def mirrorfs_chown {σ : Type} (g : Globals) (K : Kernel σ) (path : CStr)
    (uid gid : Nat) : M σ Int := do
  LOG_FUSE_OPERATION g "mirrorfs_chown"
  setErrno 0
  let o1 ← call K (Syscall.fchownat g.mntfd1 (safe_path path) uid gid 0)
  let res1 := o1.res
  let errno1 ← getErrno
  setErrno 0
  let o2 ← call K (Syscall.fchownat g.mntfd2 (safe_path path) uid gid 0)
  let res2 := o2.res
  let errno2 ← getErrno
  ABORT_IF_NOT_EQUAL g "mirrorfs_chown" res1 res2
  ABORT_IF_NOT_EQUAL g "mirrorfs_chown" errno1 errno2
  if res1 = -1 then
    return -(← getErrno)
  return 0

/-- The callback `mirrorfs_utimens`. -/
def mirrorfs_utimens {σ : Type} (g : Globals) (K : Kernel σ) (path : CStr)
    (ts : (Int × Int) × (Int × Int)) : M σ Int := do
  LOG_FUSE_OPERATION g "mirrorfs_utimens"
  setErrno 0
  let o1 ← call K (Syscall.utimensat g.mntfd1 (safe_path path) ts AT_SYMLINK_NOFOLLOW)
  let res1 := o1.res
  let errno1 ← getErrno
  setErrno 0
  let o2 ← call K (Syscall.utimensat g.mntfd2 (safe_path path) ts AT_SYMLINK_NOFOLLOW)
  let res2 := o2.res
  let errno2 ← getErrno
  ABORT_IF_NOT_EQUAL g "mirrorfs_utimens" res1 res2
  ABORT_IF_NOT_EQUAL g "mirrorfs_utimens" errno1 errno2
  if res1 = -1 then
    return -(← getErrno)
  return 0

/-- The callback `mirrorfs_create`; the record `*fi` is the field `fi` of the
process state. -/
def mirrorfs_create {σ : Type} (g : Globals) (K : Kernel σ) (path : CStr)
    (mode : Nat) : M σ Int := do
  LOG_FUSE_OPERATION g "mirrorfs_create"
  setErrno 0
  let o1 ← call K (Syscall.openat g.mntfd1 (safe_path path) (← getFi).flags (some mode))
  let fd1 := o1.res
  let errno1 ← getErrno
  setErrno 0
  let o2 ← call K (Syscall.openat g.mntfd2 (safe_path path) (← getFi).flags (some mode))
  let fd2 := o2.res
  let errno2 ← getErrno
  ABORT_IF_INCONSISTENT_FD "mirrorfs_create" fd1 fd2
  ABORT_IF_NOT_EQUAL g "mirrorfs_create" errno1 errno2
  if fd1 = -1 then
    return -(← getErrno)
  setFh (toU64 fd1)
  assert ((← readSlot (← getFi).fh) == -1)
  writeSlot (← getFi).fh fd2
  return 0

/-- The callback `mirrorfs_open`; the record `*fi` is the field `fi` of the
process state. -/
def mirrorfs_open {σ : Type} (g : Globals) (K : Kernel σ) (path : CStr) :
    M σ Int := do
  LOG_FUSE_OPERATION g "mirrorfs_open"
  setErrno 0
  let o1 ← call K (Syscall.openat g.mntfd1 (safe_path path) (← getFi).flags none)
  let fd1 := o1.res
  let errno1 ← getErrno
  setErrno 0
  let o2 ← call K (Syscall.openat g.mntfd2 (safe_path path) (← getFi).flags none)
  let fd2 := o2.res
  let errno2 ← getErrno
  ABORT_IF_INCONSISTENT_FD "mirrorfs_open" fd1 fd2
  ABORT_IF_NOT_EQUAL g "mirrorfs_open" errno1 errno2
  if fd1 = -1 then
    return -(← getErrno)
  setFh (toU64 fd1)
  assert ((← readSlot (← getFi).fh) == -1)
  writeSlot (← getFi).fh fd2
  return 0

/-- The two descriptors `mirrorfs_read` and `mirrorfs_write` work on: opened
afresh with `oflag` when `fi` is `NULL`, otherwise the handle `fi->fh` and
its slot of `mirror_fds`. -/
def descriptors {σ : Type} (g : Globals) (K : Kernel σ) (path : CStr)
    (oflag : Int) (fi : Option FuseFileInfo) : M σ (Int × Int) :=
  match fi with
  | none => do
    let oa ← call K (Syscall.openat g.mntfd1 (safe_path path) oflag none)
    let ob ← call K (Syscall.openat g.mntfd2 (safe_path path) oflag none)
    return (oa.res, ob.res)
  | some f => do
    let fd2 ← readSlot f.fh
    return (toInt32 f.fh, fd2)

/-- The callback `mirrorfs_read`; `buf` is the caller's buffer on entry,
`heap` the content of the block `malloc(size)` returns, and the caller's
buffer on return is part of the result. -/
def mirrorfs_read {σ : Type} (g : Globals) (K : Kernel σ) (path : CStr)
    (buf : CStr) (size : Nat) (offset : Int) (fi : Option FuseFileInfo)
    (heap : CStr) : M σ (Int × CStr) := do
  LOG_FUSE_OPERATION g "mirrorfs_read"
  let fds ← descriptors g K path O_RDONLY fi
  let fd1 := fds.1
  let fd2 := fds.2
  if fd1 = -1 ∨ fd2 = -1 then
    return (-(← getErrno), buf)
  let buf2 := heap
  setErrno 0
  let o1 ← call K (Syscall.pread fd1 size offset)
  let buf := if o1.res = -1 then buf else store buf o1.data
  let res1 := o1.res
  let errno1 ← getErrno
  setErrno 0
  let o2 ← call K (Syscall.pread fd2 size offset)
  let buf2 := if o2.res = -1 then buf2 else store buf2 o2.data
  let res2 := o2.res
  let errno2 ← getErrno
  ABORT_IF_NOT_EQUAL g "mirrorfs_read" res1 res2
  ABORT_IF_NOT_EQUAL g "mirrorfs_read" errno1 errno2
  let res1 ←
    if res1 = -1 then do
      pure (-(← getErrno))
    else if memcmp_ne buf buf2 res1 then
      abort
    else
      pure res1
  if fi = none then
    let _ ← call K (Syscall.close fd1)
    let _ ← call K (Syscall.close fd2)
  return (res1, buf)

/-- The callback `mirrorfs_write`. -/
def mirrorfs_write {σ : Type} (g : Globals) (K : Kernel σ) (path : CStr)
    (buf : CStr) (size : Nat) (offset : Int) (fi : Option FuseFileInfo) :
    M σ Int := do
  LOG_FUSE_OPERATION g "mirrorfs_write"
  let fds ← descriptors g K path O_WRONLY fi
  let fd1 := fds.1
  let fd2 := fds.2
  ABORT_IF_INCONSISTENT_FD "mirrorfs_write" fd1 fd2
  if fd1 = -1 then
    return -(← getErrno)
  setErrno 0
  let o1 ← call K (Syscall.pwrite fd1 buf size offset)
  let res1 := o1.res
  let errno1 ← getErrno
  setErrno 0
  let o2 ← call K (Syscall.pwrite fd2 buf size offset)
  let res2 := o2.res
  let errno2 ← getErrno
  ABORT_IF_NOT_EQUAL g "mirrorfs_write" res1 res2
  ABORT_IF_NOT_EQUAL g "mirrorfs_write" errno1 errno2
  let res1 ←
    if res1 = -1 then do
      pure (-(← getErrno))
    else
      pure res1
  if fi = none then
    let _ ← call K (Syscall.close fd1)
    let _ ← call K (Syscall.close fd2)
  return res1

/-- The callback `mirrorfs_release`. -/
def mirrorfs_release {σ : Type} (g : Globals) (K : Kernel σ) (_path : CStr)
    (fi : FuseFileInfo) : M σ Int := do
  LOG_FUSE_OPERATION g "mirrorfs_release"
  let _ ← call K (Syscall.close (← readSlot fi.fh))
  writeSlot fi.fh (-1)
  let _ ← call K (Syscall.close (toInt32 fi.fh))
  return 0

/-! ## Reading the claims -/

/-- The state after one line was written to `stderr`. -/
def logged {σ : Type} (func : String) (p : Proc σ) : Proc σ :=
  { p with log := p.log ++ [func] }

/-- The state after `LOG_FUSE_OPERATION`. -/
def logIf {σ : Type} (g : Globals) (func : String) (p : Proc σ) : Proc σ :=
  if g.log_operations ≠ 0 then logged func p else p

/-- The observations of two system calls made one after the other from the
operating-system state `os`: the primary's first, the mirror's second. -/
def observe2 {σ : Type} (K : Kernel σ) (c1 c2 : Syscall) (os : σ) : Obs × Obs :=
  ((K c1 os).1, (K c2 (K c1 os).2).1)

/-- The fail-fast rule in the words of the specification: the call returns
exactly when return values and error codes agree, with the primary's negated
error code on failure and `success` otherwise; in every other case the
process aborts. -/
def failFast (o : Obs × Obs) (success : Int) : Outcome Int :=
  if o.1.res = o.2.res ∧ o.1.err = o.2.err then
    Outcome.ret (if o.1.res = -1 then -o.1.err else success)
  else Outcome.abort

/-- The scaffolding shared by the status callbacks: log, run `c1` and `c2`
with `errno` cleared before each, compare, return. -/
def dual {σ : Type} (g : Globals) (K : Kernel σ) (func : String)
    (c1 c2 : Syscall) : M σ Int := do
  LOG_FUSE_OPERATION g func
  setErrno 0
  let o1 ← call K c1
  let res1 := o1.res
  let errno1 ← getErrno
  setErrno 0
  let o2 ← call K c2
  let res2 := o2.res
  let errno2 ← getErrno
  ABORT_IF_NOT_EQUAL g func res1 res2
  ABORT_IF_NOT_EQUAL g func errno1 errno2
  if res1 = -1 then
    return -(← getErrno)
  return 0

/-- The fields of a `struct stat` are within the range of their C types:
`st_mode`, `st_uid` and `st_gid` are 32-bit unsigned, `st_nlink` is 64-bit
unsigned, `st_size` is a 64-bit signed `off_t`. -/
def Stat.wf (s : Stat) : Prop :=
  s.st_mode < 2 ^ 32 ∧ s.st_nlink < 2 ^ 64 ∧ s.st_uid < 2 ^ 32 ∧ s.st_gid < 2 ^ 32
    ∧ -2 ^ 63 ≤ s.st_size ∧ s.st_size < 2 ^ 63

/-- The divergence rule for attributes in the words of the specification:
the records differ in mode, link count, owner uid or owner gid, or the first
is not a directory and the sizes differ. -/
def statsDiverge (s1 s2 : Stat) : Prop :=
  s1.st_mode ≠ s2.st_mode ∨ s1.st_nlink ≠ s2.st_nlink ∨ s1.st_uid ≠ s2.st_uid
    ∨ s1.st_gid ≠ s2.st_gid ∨ (S_ISDIR s1.st_mode = false ∧ s1.st_size ≠ s2.st_size)

/-- The fail-fast rule for read in the words of the specification: the
call returns exactly when counts and error codes agree and, on success, the
bytes agree; it returns the primary's negated error code on failure, and
otherwise the primary's count with the primary's bytes in the caller's
buffer. -/
def readVerdict (o : Obs × Obs) (buf heap : CStr) : Outcome (Int × CStr) :=
  if o.1.res = o.2.res ∧ o.1.err = o.2.err then
    if o.1.res = -1 then Outcome.ret (-o.1.err, buf)
    else if memcmp_ne (store buf o.1.data) (store heap o.2.data) o.1.res = true then
      Outcome.abort
    else Outcome.ret (o.1.res, store buf o.1.data)
  else Outcome.abort

/-- What `pread` may answer: -1 with a positive error code, or a count that
fits an `int` together with that many bytes. -/
def Obs.wfRead (o : Obs) : Prop :=
  (o.res = -1 → 0 < o.err) ∧
    (o.res ≠ -1 → 0 ≤ o.res ∧ o.res < 2 ^ 31 ∧ o.data.length = o.res.toNat)

/-- A computation that leaves `mirror_fds` as it found it, however it
ends. -/
def Keeps {σ α : Type} (m : M σ α) : Prop :=
  ∀ p : Proc σ, (m p).2.mirror_fds = p.mirror_fds

/-! ### Sequences of calls on handles

The host run-loop that calls the callbacks is outside the source.  For the
claim on the correlation table a sequence of calls is a list of requests; each
is served by the callback of the source, and next to the process state the
list `live` records the handles opened and not yet released. -/

/-- One call of the run-loop in the life of a handle. -/
inductive Req where
  | doOpen (path : CStr) (flags : Int)
  | doCreate (path : CStr) (mode : Nat) (flags : Int)
  | doRead (path buf : CStr) (size : Nat) (offset : Int) (fi : FuseFileInfo)
      (heap : CStr)
  | doWrite (path buf : CStr) (size : Nat) (offset : Int) (fi : FuseFileInfo)
  | doRelease (path : CStr) (fi : FuseFileInfo)

/-- The request is a read or a write. -/
def Req.isReadWrite : Req → Bool
  | Req.doRead _ _ _ _ _ _ => true
  | Req.doWrite _ _ _ _ _ => true
  | _ => false

/-- The request is an open or a create. -/
def Req.isOpen : Req → Bool
  | Req.doOpen _ _ => true
  | Req.doCreate _ _ _ => true
  | _ => false

/-- After an open or create: the sequence goes on when the call returned; a
call that returned 0 opened the handle `fi->fh`, which has to be below the
table capacity and different from every handle still open. -/
def opened {σ : Type} (r : Outcome Int × Proc σ) (live : List Nat) :
    Option (Proc σ × List Nat) :=
  match r with
  | (Outcome.ret v, q) =>
    if v = 0 then
      if q.fi.fh < MIRROR_FDS_LEN ∧ q.fi.fh ∉ live then some (q, q.fi.fh :: live)
      else none
    else some (q, live)
  | _ => none

/-- After any other call: the sequence goes on when the call returned. -/
def continued {σ α : Type} (r : Outcome α × Proc σ) (live : List Nat) :
    Option (Proc σ × List Nat) :=
  match r with
  | (Outcome.ret _, q) => some (q, live)
  | _ => none

/-- Serve one request.  An open or create gets a fresh `fuse_file_info` with
the caller's flags; a release has to name a handle that is open. -/
def serve {σ : Type} (g : Globals) (K : Kernel σ) (r : Req)
    (s : Proc σ × List Nat) : Option (Proc σ × List Nat) :=
  match r with
  | Req.doOpen path flags =>
    opened (mirrorfs_open g K path { s.1 with fi := { flags := flags, fh := 0 } }) s.2
  | Req.doCreate path mode flags =>
    opened (mirrorfs_create g K path mode
      { s.1 with fi := { flags := flags, fh := 0 } }) s.2
  | Req.doRead path buf size offset fi heap =>
    continued (mirrorfs_read g K path buf size offset (some fi) heap s.1) s.2
  | Req.doWrite path buf size offset fi =>
    continued (mirrorfs_write g K path buf size offset (some fi) s.1) s.2
  | Req.doRelease path fi =>
    if fi.fh ∈ s.2 then
      continued (mirrorfs_release g K path fi s.1)
        (s.2.filter fun h => decide (h ≠ fi.fh))
    else none

/-- Serve a sequence of requests; `none` when the process aborted or faulted
on the way, or a request broke the conditions above. -/
def session {σ : Type} (g : Globals) (K : Kernel σ) :
    List Req → Proc σ × List Nat → Option (Proc σ × List Nat)
  | [], s => some s
  | r :: rs, s =>
    match serve g K r s with
    | some t => session g K rs t
    | none => none

/-- The invariant of the correlation table: it has its 1024 slots, and slot
`h` holds a value other than -1 exactly when `h` is open. -/
def TableInv {σ : Type} (s : Proc σ × List Nat) : Prop :=
  s.1.mirror_fds.length = MIRROR_FDS_LEN ∧
    ∀ h : Nat, (∃ v : Int, s.1.mirror_fds[h]? = some v ∧ v ≠ -1) ↔ h ∈ s.2

/-- A system call that fails (returns -1) stores an error code other than
0. -/
def FailsWithCode {σ : Type} (K : Kernel σ) : Prop :=
  ∀ (c : Syscall) (os : σ), (K c os).1.res = -1 → (K c os).1.err ≠ 0

/-- The end of `mirrorfs_open` and `mirrorfs_create`, after the comparisons:
return the error, or store the handle and fill its slot of `mirror_fds`. -/
def handleTail {σ : Type} (fd1 fd2 : Int) : M σ Int := do
  if fd1 = -1 then
    return -(← getErrno)
  setFh (toU64 fd1)
  assert ((← readSlot (← getFi).fh) == -1)
  writeSlot (← getFi).fh fd2
  return 0

/-- The process state after the scaffolding has run its two calls: `r1` and
`r2` are what the kernel answered. -/
def afterCalls {σ : Type} (g : Globals) (func : String) (c1 c2 : Syscall)
    (r2 : Obs × σ) (p : Proc σ) : Proc σ :=
  { os := r2.2, errno := r2.1.err, mirror_fds := p.mirror_fds, fi := p.fi,
    trace := p.trace ++ [c1, c2], log := (logIf g func p).log }

/-- What `mirrorfs_open` and `mirrorfs_create` do once the two `openat` calls
have answered `o1` and `o2` and left the process in state `q`: the two
comparison macros, then `handleTail`. -/
def openVerdict {σ : Type} (g : Globals) (func : String) (o1 o2 : Obs)
    (q : Proc σ) : Outcome Int × Proc σ :=
  if (o1.res = -1 ↔ o2.res = -1) then
    if o1.err = o2.err then handleTail o1.res o2.res q
    else if g.abort_on_difference ≠ 0 then (Outcome.abort, logged func q)
    else handleTail o1.res o2.res (logged func q)
  else (Outcome.abort, logged func q)

/-! ## Concrete inputs -/

/-- Globals as the source initialises them, with the primary anchor on
descriptor 3 and the mirror anchor on descriptor 4. -/
def demoGlobals : Globals :=
  { abort_on_difference := 1, log_operations := 1, mntfd1 := 3, mntfd2 := 4 }

/-- Two identical backing trees: every call succeeds with the same answer on
both anchors; `openat` yields descriptor 5 on the primary and 6 on the mirror,
`pread` yields the five bytes of `hello`, `pwrite` accepts every byte. -/
def demoKernel : Kernel Unit := fun c os =>
  match c with
  | Syscall.openat dirfd _ _ _ =>
    ({ res := if dirfd = 3 then 5 else 6, err := 0 }, os)
  | Syscall.pread _ _ _ => ({ res := 5, err := 0, data := "hello".toList }, os)
  | Syscall.pwrite _ _ count _ => ({ res := count, err := 0 }, os)
  | _ => ({ res := 0, err := 0 }, os)

/-- A process state right after startup over the operating system `os`. -/
def startProc {σ : Type} (os : σ) : Proc σ :=
  { os := os, errno := 0, mirror_fds := initial_mirror_fds,
    fi := { flags := 0, fh := 0 }, trace := [], log := [] }

/-- The startup state with handle 5 open and paired with mirror
descriptor 6. -/
def openedProc : Proc Unit :=
  { startProc () with mirror_fds := initial_mirror_fds.set 5 6 }

/-- Two trees that disagree on permissions: `openat` yields descriptor 5 on
the primary anchor 3 and fails with error code 13 on the mirror. -/
def asymKernel : Kernel Unit := fun c os =>
  match c with
  | Syscall.openat dirfd _ _ _ =>
    (if dirfd = 3 then { res := 5, err := 0 } else { res := -1, err := 13 }, os)
  | _ => ({ res := 0, err := 0 }, os)

/-- A process with many descriptors in use: `openat` yields descriptor 1024
on the primary anchor 3 and 1025 on the mirror. -/
def highFdKernel : Kernel Unit := fun c os =>
  match c with
  | Syscall.openat dirfd _ _ _ =>
    ({ res := if dirfd = 3 then 1024 else 1025, err := 0 }, os)
  | _ => ({ res := 0, err := 0 }, os)

/-- Two trees whose symbolic link has targets of equal length and different
bytes: `aa` below the primary anchor 3, `bb` below the mirror. -/
def linkTargetsKernel : Kernel Unit := fun c os =>
  match c with
  | Syscall.readlinkat dirfd _ _ =>
    ({ res := 2, err := 0, data := if dirfd = 3 then "aa".toList else "bb".toList },
      os)
  | _ => ({ res := 0, err := 0 }, os)

/-- The record of a regular file with mode 0644, one link, owner 1000:1000,
inode number `ino` and `size` bytes. -/
def sampleStat (ino : Nat) (size : Int) : Stat :=
  { Stat.zero with st_ino := ino, st_mode := 0o100644, st_nlink := 1,
                   st_uid := 1000, st_gid := 1000, st_size := size }

/-- Two trees holding the same regular file of 5 bytes under different inode
numbers, the mirror's copy cut to `size2` bytes. -/
def statKernel (size2 : Int) : Kernel Unit := fun c os =>
  match c with
  | Syscall.fstatat dirfd _ _ =>
    ({ res := 0, err := 0,
       st := if dirfd = 3 then sampleStat 11 5 else sampleStat 22 size2 }, os)
  | _ => ({ res := 0, err := 0 }, os)

/-- Two trees whose file holds different bytes: `pread` yields the five
bytes of `hello` on descriptor 5 and those of `jello` on every other one. -/
def garbledKernel : Kernel Unit := fun c os =>
  match c with
  | Syscall.pread fd _ _ =>
    ({ res := 5, err := 0, data := if fd = 5 then "hello".toList else "jello".toList },
      os)
  | _ => ({ res := 0, err := 0 }, os)

/-! ## Running the state-passing code -/

section Runs
variable {σ α β : Type}

@[simp] theorem logged_os (f : String) (p : Proc σ) : (logged f p).os = p.os := rfl
@[simp] theorem logged_errno (f : String) (p : Proc σ) :
    (logged f p).errno = p.errno := rfl
@[simp] theorem logged_mirror_fds (f : String) (p : Proc σ) :
    (logged f p).mirror_fds = p.mirror_fds := rfl
@[simp] theorem logged_fi (f : String) (p : Proc σ) : (logged f p).fi = p.fi := rfl
@[simp] theorem logged_trace (f : String) (p : Proc σ) :
    (logged f p).trace = p.trace := rfl

@[simp] theorem logIf_os (g : Globals) (f : String) (p : Proc σ) :
    (logIf g f p).os = p.os := by
  unfold logIf; split <;> rfl
@[simp] theorem logIf_errno (g : Globals) (f : String) (p : Proc σ) :
    (logIf g f p).errno = p.errno := by
  unfold logIf; split <;> rfl
@[simp] theorem logIf_mirror_fds (g : Globals) (f : String) (p : Proc σ) :
    (logIf g f p).mirror_fds = p.mirror_fds := by
  unfold logIf; split <;> rfl
@[simp] theorem logIf_fi (g : Globals) (f : String) (p : Proc σ) :
    (logIf g f p).fi = p.fi := by
  unfold logIf; split <;> rfl
@[simp] theorem logIf_trace (g : Globals) (f : String) (p : Proc σ) :
    (logIf g f p).trace = p.trace := by
  unfold logIf; split <;> rfl

@[simp] theorem run_pure (a : α) (p : Proc σ) :
    (pure a : M σ α) p = (Outcome.ret a, p) := rfl

@[simp] theorem pure_bind_run (a : α) (f : α → M σ β) (p : Proc σ) :
    (pure a >>= f) p = f a p := rfl

@[simp] theorem getErrno_bind (f : Int → M σ β) (p : Proc σ) :
    (getErrno >>= f) p = f p.errno p := rfl

@[simp] theorem getErrno_run (p : Proc σ) :
    getErrno p = (Outcome.ret p.errno, p) := rfl

@[simp] theorem getFi_bind (f : FuseFileInfo → M σ β) (p : Proc σ) :
    (getFi >>= f) p = f p.fi p := rfl

@[simp] theorem setErrno_bind (v : Int) (f : Unit → M σ β) (p : Proc σ) :
    (setErrno v >>= f) p = f () { p with errno := v } := rfl

@[simp] theorem setFh_bind (v : Nat) (f : Unit → M σ β) (p : Proc σ) :
    (setFh v >>= f) p = f () { p with fi := { p.fi with fh := v } } := rfl

@[simp] theorem call_bind (K : Kernel σ) (c : Syscall) (f : Obs → M σ β)
    (p : Proc σ) :
    (call K c >>= f) p = f (K c p.os).1
      { p with os := (K c p.os).2,
               errno := if (K c p.os).1.err = 0 then p.errno else (K c p.os).1.err,
               trace := p.trace ++ [c] } := rfl

@[simp] theorem abort_bind (f : α → M σ β) (p : Proc σ) :
    ((abort : M σ α) >>= f) p = (Outcome.abort, p) := rfl

@[simp] theorem abort_run (p : Proc σ) : (abort : M σ α) p = (Outcome.abort, p) := rfl

@[simp] theorem ite_bind_run (c : Prop) [Decidable c] (a b : M σ α)
    (f : α → M σ β) (p : Proc σ) :
    ((if c then a else b) >>= f) p = if c then (a >>= f) p else (b >>= f) p := by
  split <;> rfl

@[simp] theorem LOG_bind (g : Globals) (func : String) (f : Unit → M σ β)
    (p : Proc σ) :
    (LOG_FUSE_OPERATION g func >>= f) p = f () (logIf g func p) := by
  unfold LOG_FUSE_OPERATION logIf
  split <;> rfl

@[simp] theorem ABORT_IF_NOT_EQUAL_bind (g : Globals) (func : String) (x y : Int)
    (f : Unit → M σ β) (p : Proc σ) :
    (ABORT_IF_NOT_EQUAL g func x y >>= f) p =
      if x = y then f () p
      else if g.abort_on_difference ≠ 0 then (Outcome.abort, logged func p)
      else f () (logged func p) := by
  unfold ABORT_IF_NOT_EQUAL
  by_cases h : x = y
  · simp [h]
  · by_cases h2 : g.abort_on_difference = 0
    · simp [h, h2]; rfl
    · simp [h, h2]; rfl

@[simp] theorem ABORT_IF_INCONSISTENT_FD_bind (func : String) (fd1 fd2 : Int)
    (f : Unit → M σ β) (p : Proc σ) :
    (ABORT_IF_INCONSISTENT_FD func fd1 fd2 >>= f) p =
      if (fd1 = -1 ↔ fd2 = -1) then f () p
      else (Outcome.abort, logged func p) := by
  unfold ABORT_IF_INCONSISTENT_FD
  by_cases h1 : fd1 = -1 <;> by_cases h2 : fd2 = -1 <;> simp [h1, h2] <;> rfl

@[simp] theorem readSlot_bind (i : Nat) (f : Int → M σ β) (p : Proc σ) :
    (readSlot i >>= f) p =
      match p.mirror_fds[i]? with
      | some v => f v p
      | none => (Outcome.fault, p) := by
  show M.bind (readSlot i) f p = _
  unfold M.bind readSlot
  cases p.mirror_fds[i]? <;> rfl

@[simp] theorem writeSlot_bind (i : Nat) (v : Int) (f : Unit → M σ β) (p : Proc σ) :
    (writeSlot i v >>= f) p =
      if i < p.mirror_fds.length then
        f () { p with mirror_fds := p.mirror_fds.set i v }
      else (Outcome.fault, p) := by
  show M.bind (writeSlot i v) f p = _
  unfold M.bind writeSlot
  by_cases h : i < p.mirror_fds.length <;> simp [h]

@[simp] theorem assert_bind (c : Bool) (f : Unit → M σ β) (p : Proc σ) :
    (assert c >>= f) p = if c then f () p else (Outcome.abort, p) := by
  unfold assert
  cases c <;> rfl

@[simp] theorem errno_after (e : Int) : (if e = 0 then 0 else e) = e := by
  split <;> simp_all

/-- Under fail-fast the scaffolding returns exactly when the two observations
agree. -/
theorem dual_outcome (g : Globals) (K : Kernel σ) (func : String)
    (c1 c2 : Syscall) (p : Proc σ) (hg : g.abort_on_difference ≠ 0) :
    (dual g K func c1 c2 p).1 = failFast (observe2 K c1 c2 p.os) 0 := by
  simp only [dual, failFast, observe2, LOG_bind, setErrno_bind, call_bind,
    getErrno_bind, ABORT_IF_NOT_EQUAL_bind, ite_apply, run_pure, pure_bind_run,
    errno_after, logIf_os]
  split_ifs <;> simp_all

/-- The scaffolding performs exactly the two calls, in order. -/
theorem dual_trace (g : Globals) (K : Kernel σ) (func : String)
    (c1 c2 : Syscall) (p : Proc σ) :
    (dual g K func c1 c2 p).2.trace = p.trace ++ [c1, c2] := by
  simp only [dual, LOG_bind, setErrno_bind, call_bind,
    getErrno_bind, ABORT_IF_NOT_EQUAL_bind, ite_apply, run_pure, pure_bind_run,
    errno_after, logIf_os]
  split_ifs <;> simp_all

/-- The scaffolding leaves `mirror_fds` alone. -/
theorem dual_mirror_fds (g : Globals) (K : Kernel σ) (func : String)
    (c1 c2 : Syscall) (p : Proc σ) :
    (dual g K func c1 c2 p).2.mirror_fds = p.mirror_fds := by
  simp only [dual, LOG_bind, setErrno_bind, call_bind,
    getErrno_bind, ABORT_IF_NOT_EQUAL_bind, ite_apply, run_pure, pure_bind_run,
    errno_after, logIf_os]
  split_ifs <;> simp_all

theorem bind_assoc_run (m : M σ α) (k : α → M σ β) {γ : Type} (h : β → M σ γ) :
    (m >>= k) >>= h = m >>= fun a => k a >>= h := by
  funext p
  show M.bind (M.bind m k) h p = M.bind m (fun a => M.bind (k a) h) p
  unfold M.bind
  rcases hm : m p with ⟨o, q⟩
  cases o <;> simp

theorem descriptors_some_bind (g : Globals) (K : Kernel σ) (path : CStr)
    (oflag : Int) (f : FuseFileInfo) (h : Int × Int → M σ β) (p : Proc σ) :
    (descriptors g K path oflag (some f) >>= h) p =
      match p.mirror_fds[f.fh]? with
      | some v => h (toInt32 f.fh, v) p
      | none => (Outcome.fault, p) := by
  simp only [descriptors, bind_assoc_run, readSlot_bind]
  cases p.mirror_fds[f.fh]? <;> rfl

theorem descriptors_none_bind (g : Globals) (K : Kernel σ) (path : CStr)
    (oflag : Int) (h : Int × Int → M σ β) (p : Proc σ) :
    (descriptors g K path oflag none >>= h) p =
      (call K (Syscall.openat g.mntfd1 (safe_path path) oflag none) >>= fun oa =>
        call K (Syscall.openat g.mntfd2 (safe_path path) oflag none) >>= fun ob =>
          h (oa.res, ob.res)) p := by
  simp only [descriptors, bind_assoc_run]
  rfl

/-! ### The status callbacks are instances of the scaffolding -/

theorem mirrorfs_access_eq (g : Globals) (K : Kernel σ) (path : CStr) (mask : Int) :
    mirrorfs_access g K path mask = dual g K "mirrorfs_access"
      (Syscall.faccessat g.mntfd1 (safe_path path) mask 0)
      (Syscall.faccessat g.mntfd2 (safe_path path) mask 0) := rfl

theorem mirrorfs_mkdir_eq (g : Globals) (K : Kernel σ) (path : CStr) (mode : Nat) :
    mirrorfs_mkdir g K path mode = dual g K "mirrorfs_mkdir"
      (Syscall.mkdirat g.mntfd1 (safe_path path) mode)
      (Syscall.mkdirat g.mntfd2 (safe_path path) mode) := rfl

theorem mirrorfs_unlink_eq (g : Globals) (K : Kernel σ) (path : CStr) :
    mirrorfs_unlink g K path = dual g K "mirrorfs_unlink"
      (Syscall.unlinkat g.mntfd1 (safe_path path) 0)
      (Syscall.unlinkat g.mntfd2 (safe_path path) 0) := rfl

theorem mirrorfs_rmdir_eq (g : Globals) (K : Kernel σ) (path : CStr) :
    mirrorfs_rmdir g K path = dual g K "mirrorfs_rmdir"
      (Syscall.unlinkat g.mntfd1 path AT_REMOVEDIR)
      (Syscall.unlinkat g.mntfd2 path AT_REMOVEDIR) := rfl

theorem mirrorfs_symlink_eq (g : Globals) (K : Kernel σ) (from_ to_ : CStr) :
    mirrorfs_symlink g K from_ to_ = dual g K "mirrorfs_symlink"
      (Syscall.symlinkat from_ g.mntfd1 (safe_path to_))
      (Syscall.symlinkat from_ g.mntfd2 (safe_path to_)) := rfl

theorem mirrorfs_rename_zero_eq (g : Globals) (K : Kernel σ) (from_ to_ : CStr) :
    mirrorfs_rename g K from_ to_ 0 = dual g K "mirrorfs_rename"
      (Syscall.renameat g.mntfd1 (safe_path from_) g.mntfd1 (safe_path to_))
      (Syscall.renameat g.mntfd2 (safe_path from_) g.mntfd2 (safe_path to_)) := rfl

theorem mirrorfs_link_eq (g : Globals) (K : Kernel σ) (from_ to_ : CStr) :
    mirrorfs_link g K from_ to_ = dual g K "mirrorfs_link"
      (Syscall.linkat g.mntfd1 from_ g.mntfd1 to_ 0)
      (Syscall.linkat g.mntfd1 from_ g.mntfd1 to_ 0) := rfl

theorem mirrorfs_chmod_eq (g : Globals) (K : Kernel σ) (path : CStr) (mode : Nat) :
    mirrorfs_chmod g K path mode = dual g K "mirrorfs_chmod"
      (Syscall.fchmodat g.mntfd1 (safe_path path) mode 0)
      (Syscall.fchmodat g.mntfd2 (safe_path path) mode 0) := rfl

theorem mirrorfs_chown_eq (g : Globals) (K : Kernel σ) (path : CStr) (uid gid : Nat) :
    mirrorfs_chown g K path uid gid = dual g K "mirrorfs_chown"
      (Syscall.fchownat g.mntfd1 (safe_path path) uid gid 0)
      (Syscall.fchownat g.mntfd2 (safe_path path) uid gid 0) := rfl

theorem mirrorfs_utimens_eq (g : Globals) (K : Kernel σ) (path : CStr)
    (ts : (Int × Int) × (Int × Int)) :
    mirrorfs_utimens g K path ts = dual g K "mirrorfs_utimens"
      (Syscall.utimensat g.mntfd1 (safe_path path) ts AT_SYMLINK_NOFOLLOW)
      (Syscall.utimensat g.mntfd2 (safe_path path) ts AT_SYMLINK_NOFOLLOW) := rfl

/-! ### `mirrorfs_write` -/

theorem ite_run (c : Prop) [Decidable c] (a b : M σ α) (p : Proc σ) :
    (if c then a else b) p = if c then a p else b p := by
  split <;> rfl

theorem descriptors_some_run (g : Globals) (K : Kernel σ) (path : CStr)
    (oflag : Int) (f : FuseFileInfo) (h : Int × Int → M σ β) (p : Proc σ) (v : Int)
    (hslot : p.mirror_fds[f.fh]? = some v) :
    (descriptors g K path oflag (some f) >>= h) p = h (toInt32 f.fh, v) p := by
  rw [descriptors_some_bind, hslot]

/-- Under fail-fast, a write through a handle whose two descriptors are valid
returns exactly when the two `pwrite` observations agree. -/
theorem write_handle_outcome (g : Globals) (K : Kernel σ) (path buf : CStr)
    (size : Nat) (offset : Int) (f : FuseFileInfo) (fd2 : Int) (p : Proc σ)
    (hg : g.abort_on_difference ≠ 0)
    (hslot : p.mirror_fds[f.fh]? = some fd2) (hfd1 : toInt32 f.fh ≠ -1)
    (hfd2 : fd2 ≠ -1) :
    (mirrorfs_write g K path buf size offset (some f) p).1 =
      failFast (observe2 K (Syscall.pwrite (toInt32 f.fh) buf size offset)
          (Syscall.pwrite fd2 buf size offset) p.os)
        (K (Syscall.pwrite (toInt32 f.fh) buf size offset) p.os).1.res := by
  have hs : (logIf g "mirrorfs_write" p).mirror_fds[f.fh]? = some fd2 := by
    rw [logIf_mirror_fds]; exact hslot
  simp only [mirrorfs_write, LOG_bind, descriptors_some_run _ _ _ _ _ _ _ _ hs]
  simp only [ABORT_IF_INCONSISTENT_FD_bind, hfd1, hfd2, iff_self, if_true]
  simp only [ite_run]
  simp only [hfd1, if_false]
  rw [pure_bind_run, setErrno_bind, call_bind, getErrno_bind, setErrno_bind, call_bind,
    getErrno_bind]
  simp only [errno_after, logIf_os, failFast, observe2]
  generalize Syscall.pwrite (toInt32 f.fh) buf size offset = c1
  generalize Syscall.pwrite fd2 buf size offset = c2
  generalize K c1 p.os = r1
  generalize K c2 r1.2 = r2
  rw [ABORT_IF_NOT_EQUAL_bind]
  by_cases hr : r1.1.res = r2.1.res
  · rw [if_pos hr, ABORT_IF_NOT_EQUAL_bind]
    by_cases he : r1.1.err = r2.1.err
    · rw [if_pos he, if_pos (And.intro hr he), ite_run]
      by_cases h1 : r1.1.res = -1
      · rw [if_pos h1, if_pos h1]
        exact congrArg (fun e : Int => Outcome.ret (-e)) he.symm
      · rw [if_neg h1, if_neg h1]
        rfl
    · rw [if_neg he, if_pos hg, if_neg (fun h => he h.2)]
  · rw [if_neg hr, if_pos hg, if_neg (fun h => hr h.1)]

/-- Under fail-fast, a write without a handle whose two fresh descriptors are
valid returns exactly when the two `pwrite` observations agree. -/
theorem write_fresh_outcome (g : Globals) (K : Kernel σ) (path buf : CStr)
    (size : Nat) (offset : Int) (p : Proc σ)
    (hg : g.abort_on_difference ≠ 0)
    (hfd1 : (observe2 K (Syscall.openat g.mntfd1 (safe_path path) O_WRONLY none)
      (Syscall.openat g.mntfd2 (safe_path path) O_WRONLY none) p.os).1.res ≠ -1)
    (hfd2 : (observe2 K (Syscall.openat g.mntfd1 (safe_path path) O_WRONLY none)
      (Syscall.openat g.mntfd2 (safe_path path) O_WRONLY none) p.os).2.res ≠ -1) :
    (mirrorfs_write g K path buf size offset none p).1 =
      failFast (observe2 K
          (Syscall.pwrite (K (Syscall.openat g.mntfd1 (safe_path path) O_WRONLY none)
            p.os).1.res buf size offset)
          (Syscall.pwrite (K (Syscall.openat g.mntfd2 (safe_path path) O_WRONLY none)
            (K (Syscall.openat g.mntfd1 (safe_path path) O_WRONLY none)
              p.os).2).1.res buf size offset)
          (K (Syscall.openat g.mntfd2 (safe_path path) O_WRONLY none)
            (K (Syscall.openat g.mntfd1 (safe_path path) O_WRONLY none) p.os).2).2)
        (K (Syscall.pwrite (K (Syscall.openat g.mntfd1 (safe_path path) O_WRONLY none)
            p.os).1.res buf size offset)
          (K (Syscall.openat g.mntfd2 (safe_path path) O_WRONLY none)
            (K (Syscall.openat g.mntfd1 (safe_path path) O_WRONLY none)
              p.os).2).2).1.res := by
  unfold observe2 at hfd1 hfd2
  simp only [mirrorfs_write, LOG_bind, descriptors_none_bind]
  rw [call_bind, call_bind]
  simp only [logIf_os]
  generalize K (Syscall.openat g.mntfd1 (safe_path path) O_WRONLY none) p.os = ra at *
  generalize K (Syscall.openat g.mntfd2 (safe_path path) O_WRONLY none) ra.2 = rb at *
  simp only [ABORT_IF_INCONSISTENT_FD_bind, hfd1, hfd2, iff_self, if_true]
  simp only [ite_run]
  simp only [hfd1, if_false]
  rw [pure_bind_run, setErrno_bind, call_bind, getErrno_bind, setErrno_bind, call_bind,
    getErrno_bind]
  simp only [errno_after, failFast, observe2]
  generalize Syscall.pwrite ra.1.res buf size offset = c1
  generalize Syscall.pwrite rb.1.res buf size offset = c2
  generalize K c1 rb.2 = r1
  generalize K c2 r1.2 = r2
  rw [ABORT_IF_NOT_EQUAL_bind]
  by_cases hr : r1.1.res = r2.1.res
  · rw [if_pos hr, ABORT_IF_NOT_EQUAL_bind]
    by_cases he : r1.1.err = r2.1.err
    · rw [if_pos he, if_pos (And.intro hr he), ite_run]
      by_cases h1 : r1.1.res = -1
      · rw [if_pos h1, if_pos h1]
        exact congrArg (fun e : Int => Outcome.ret (-e)) he.symm
      · rw [if_neg h1, if_neg h1]
        rfl
    · rw [if_neg he, if_pos hg, if_neg (fun h => he h.2)]
  · rw [if_neg hr, if_pos hg, if_neg (fun h => hr h.1)]

end Runs

/-! ## Opening a handle -/

section Handles
variable {σ : Type}

theorem handleTail_fail (fd2 : Int) (q : Proc σ) :
    handleTail (-1) fd2 q = (Outcome.ret (-q.errno), q) := rfl

theorem handleTail_fault (fd1 fd2 : Int) (q : Proc σ) (h1 : fd1 ≠ -1)
    (hb : q.mirror_fds.length ≤ toU64 fd1) :
    handleTail fd1 fd2 q =
      (Outcome.fault, { q with fi := { q.fi with fh := toU64 fd1 } }) := by
  have hn : q.mirror_fds[toU64 fd1]? = none := List.getElem?_eq_none hb
  simp only [handleTail]
  rw [ite_run, if_neg h1, pure_bind_run, setFh_bind, getFi_bind, readSlot_bind]
  simp only [hn]

theorem handleTail_busy (fd1 fd2 v : Int) (q : Proc σ) (h1 : fd1 ≠ -1)
    (hs : q.mirror_fds[toU64 fd1]? = some v) (hv : v ≠ -1) :
    handleTail fd1 fd2 q =
      (Outcome.abort, { q with fi := { q.fi with fh := toU64 fd1 } }) := by
  have hv2 : (v == -1) = false := by simpa using hv
  simp only [handleTail]
  rw [ite_run, if_neg h1, pure_bind_run, setFh_bind, getFi_bind, readSlot_bind]
  simp only [hs]
  rw [assert_bind, hv2]
  rfl

theorem handleTail_ok (fd1 fd2 : Int) (q : Proc σ) (h1 : fd1 ≠ -1)
    (hs : q.mirror_fds[toU64 fd1]? = some (-1)) :
    handleTail fd1 fd2 q =
      (Outcome.ret 0, { q with fi := { q.fi with fh := toU64 fd1 },
                               mirror_fds := q.mirror_fds.set (toU64 fd1) fd2 }) := by
  have hlt : toU64 fd1 < q.mirror_fds.length := by
    by_contra hge
    rw [List.getElem?_eq_none (Nat.le_of_not_lt hge)] at hs
    exact Option.noConfusion hs
  simp only [handleTail]
  rw [ite_run, if_neg h1, pure_bind_run, setFh_bind, getFi_bind, readSlot_bind]
  simp only [hs]
  rw [assert_bind]
  simp only [beq_self_eq_true, if_true]
  rw [getFi_bind, writeSlot_bind, if_pos hlt]
  rfl

/-- The closed form of `mirrorfs_open`. -/
theorem mirrorfs_open_run (g : Globals) (K : Kernel σ) (path : CStr) (p : Proc σ) :
    mirrorfs_open g K path p =
      openVerdict g "mirrorfs_open"
        (K (Syscall.openat g.mntfd1 (safe_path path) p.fi.flags none) p.os).1
        (K (Syscall.openat g.mntfd2 (safe_path path) p.fi.flags none)
          (K (Syscall.openat g.mntfd1 (safe_path path) p.fi.flags none) p.os).2).1
        (afterCalls g "mirrorfs_open"
          (Syscall.openat g.mntfd1 (safe_path path) p.fi.flags none)
          (Syscall.openat g.mntfd2 (safe_path path) p.fi.flags none)
          (K (Syscall.openat g.mntfd2 (safe_path path) p.fi.flags none)
            (K (Syscall.openat g.mntfd1 (safe_path path) p.fi.flags none) p.os).2) p) := by
  simp only [mirrorfs_open]
  rw [LOG_bind, setErrno_bind, getFi_bind, call_bind, getErrno_bind, setErrno_bind,
    getFi_bind, call_bind, getErrno_bind, ABORT_IF_INCONSISTENT_FD_bind,
    ABORT_IF_NOT_EQUAL_bind]
  simp only [errno_after, logIf_os, logIf_fi, logIf_mirror_fds, logIf_trace, openVerdict,
    afterCalls, List.append_assoc, List.singleton_append]
  rfl

/-- The closed form of `mirrorfs_create`. -/
theorem mirrorfs_create_run (g : Globals) (K : Kernel σ) (path : CStr) (mode : Nat)
    (p : Proc σ) :
    mirrorfs_create g K path mode p =
      openVerdict g "mirrorfs_create"
        (K (Syscall.openat g.mntfd1 (safe_path path) p.fi.flags (some mode)) p.os).1
        (K (Syscall.openat g.mntfd2 (safe_path path) p.fi.flags (some mode))
          (K (Syscall.openat g.mntfd1 (safe_path path) p.fi.flags (some mode)) p.os).2).1
        (afterCalls g "mirrorfs_create"
          (Syscall.openat g.mntfd1 (safe_path path) p.fi.flags (some mode))
          (Syscall.openat g.mntfd2 (safe_path path) p.fi.flags (some mode))
          (K (Syscall.openat g.mntfd2 (safe_path path) p.fi.flags (some mode))
            (K (Syscall.openat g.mntfd1 (safe_path path) p.fi.flags (some mode))
              p.os).2) p) := by
  simp only [mirrorfs_create]
  rw [LOG_bind, setErrno_bind, getFi_bind, call_bind, getErrno_bind, setErrno_bind,
    getFi_bind, call_bind, getErrno_bind, ABORT_IF_INCONSISTENT_FD_bind,
    ABORT_IF_NOT_EQUAL_bind]
  simp only [errno_after, logIf_os, logIf_fi, logIf_mirror_fds, logIf_trace, openVerdict,
    afterCalls, List.append_assoc, List.singleton_append]
  rfl

theorem openVerdict_fault (g : Globals) (func : String) (o1 o2 : Obs) (q : Proc σ)
    (h1 : o1.res ≠ -1) (h2 : o2.res ≠ -1) (he : o1.err = o2.err)
    (hb : q.mirror_fds.length ≤ toU64 o1.res) :
    openVerdict g func o1 o2 q =
      (Outcome.fault, { q with fi := { q.fi with fh := toU64 o1.res } }) := by
  have hc : (o1.res = -1 ↔ o2.res = -1) := ⟨fun h => absurd h h1, fun h => absurd h h2⟩
  unfold openVerdict
  rw [if_pos hc, if_pos he]
  exact handleTail_fault _ _ _ h1 hb

end Handles

/-! ## The table at startup -/

theorem initial_mirror_fds_length : initial_mirror_fds.length = MIRROR_FDS_LEN := by
  simp [initial_mirror_fds]

theorem initial_mirror_fds_get (i : Nat) (h : i < MIRROR_FDS_LEN) :
    initial_mirror_fds[i]? = some (-1) := by
  simp [initial_mirror_fds, List.getElem?_replicate, h]

theorem initial_set_get (i : Nat) (v : Int) (h : i < MIRROR_FDS_LEN) :
    (initial_mirror_fds.set i v)[i]? = some v := by
  simp [initial_mirror_fds, h]

/-! ## C1: the fail-fast rule of the status callbacks and of write -/

/-- C1. Under fail-fast (`abort_on_difference` non-zero), each of access,
mkdir, unlink, symlink, rename with flags 0, chmod, chown, utimens, and write
(through a handle with two valid descriptors, or without a handle when both
fresh descriptors are valid) returns exactly when the primary's observation
(r1, e1) and the mirror's observation (r2, e2) satisfy r1 = r2 and e1 = e2;
the value returned is -e1 when r1 = -1, otherwise 0 for the status callbacks
and r1 for write; in every other case the process aborts. -/
theorem status_and_write_fail_fast {σ : Type} (g : Globals) (K : Kernel σ)
    (p : Proc σ) (hg : g.abort_on_difference ≠ 0)
    (path from_ to_ buf : CStr) (mask offset : Int) (mode uid gid size : Nat)
    (ts : (Int × Int) × (Int × Int)) (f : FuseFileInfo) (fd2 : Int) :
    (mirrorfs_access g K path mask p).1 =
        failFast (observe2 K (Syscall.faccessat g.mntfd1 (safe_path path) mask 0)
          (Syscall.faccessat g.mntfd2 (safe_path path) mask 0) p.os) 0
    ∧ (mirrorfs_mkdir g K path mode p).1 =
        failFast (observe2 K (Syscall.mkdirat g.mntfd1 (safe_path path) mode)
          (Syscall.mkdirat g.mntfd2 (safe_path path) mode) p.os) 0
    ∧ (mirrorfs_unlink g K path p).1 =
        failFast (observe2 K (Syscall.unlinkat g.mntfd1 (safe_path path) 0)
          (Syscall.unlinkat g.mntfd2 (safe_path path) 0) p.os) 0
    ∧ (mirrorfs_symlink g K from_ to_ p).1 =
        failFast (observe2 K (Syscall.symlinkat from_ g.mntfd1 (safe_path to_))
          (Syscall.symlinkat from_ g.mntfd2 (safe_path to_)) p.os) 0
    ∧ (mirrorfs_rename g K from_ to_ 0 p).1 =
        failFast (observe2 K
          (Syscall.renameat g.mntfd1 (safe_path from_) g.mntfd1 (safe_path to_))
          (Syscall.renameat g.mntfd2 (safe_path from_) g.mntfd2 (safe_path to_))
          p.os) 0
    ∧ (mirrorfs_chmod g K path mode p).1 =
        failFast (observe2 K (Syscall.fchmodat g.mntfd1 (safe_path path) mode 0)
          (Syscall.fchmodat g.mntfd2 (safe_path path) mode 0) p.os) 0
    ∧ (mirrorfs_chown g K path uid gid p).1 =
        failFast (observe2 K (Syscall.fchownat g.mntfd1 (safe_path path) uid gid 0)
          (Syscall.fchownat g.mntfd2 (safe_path path) uid gid 0) p.os) 0
    ∧ (mirrorfs_utimens g K path ts p).1 =
        failFast (observe2 K
          (Syscall.utimensat g.mntfd1 (safe_path path) ts AT_SYMLINK_NOFOLLOW)
          (Syscall.utimensat g.mntfd2 (safe_path path) ts AT_SYMLINK_NOFOLLOW)
          p.os) 0
    ∧ (p.mirror_fds[f.fh]? = some fd2 → toInt32 f.fh ≠ -1 → fd2 ≠ -1 →
        (mirrorfs_write g K path buf size offset (some f) p).1 =
          failFast (observe2 K (Syscall.pwrite (toInt32 f.fh) buf size offset)
              (Syscall.pwrite fd2 buf size offset) p.os)
            (K (Syscall.pwrite (toInt32 f.fh) buf size offset) p.os).1.res)
    ∧ ((observe2 K (Syscall.openat g.mntfd1 (safe_path path) O_WRONLY none)
          (Syscall.openat g.mntfd2 (safe_path path) O_WRONLY none) p.os).1.res ≠ -1 →
       (observe2 K (Syscall.openat g.mntfd1 (safe_path path) O_WRONLY none)
          (Syscall.openat g.mntfd2 (safe_path path) O_WRONLY none) p.os).2.res ≠ -1 →
        (mirrorfs_write g K path buf size offset none p).1 =
          failFast (observe2 K
              (Syscall.pwrite (K (Syscall.openat g.mntfd1 (safe_path path) O_WRONLY
                none) p.os).1.res buf size offset)
              (Syscall.pwrite (K (Syscall.openat g.mntfd2 (safe_path path) O_WRONLY
                none) (K (Syscall.openat g.mntfd1 (safe_path path) O_WRONLY none)
                  p.os).2).1.res buf size offset)
              (K (Syscall.openat g.mntfd2 (safe_path path) O_WRONLY none)
                (K (Syscall.openat g.mntfd1 (safe_path path) O_WRONLY none)
                  p.os).2).2)
            (K (Syscall.pwrite (K (Syscall.openat g.mntfd1 (safe_path path) O_WRONLY
                none) p.os).1.res buf size offset)
              (K (Syscall.openat g.mntfd2 (safe_path path) O_WRONLY none)
                (K (Syscall.openat g.mntfd1 (safe_path path) O_WRONLY none)
                  p.os).2).2).1.res) := by
  refine ⟨?_, ?_, ?_, ?_, ?_, ?_, ?_, ?_, ?_, ?_⟩
  · rw [mirrorfs_access_eq]; exact dual_outcome g K _ _ _ p hg
  · rw [mirrorfs_mkdir_eq]; exact dual_outcome g K _ _ _ p hg
  · rw [mirrorfs_unlink_eq]; exact dual_outcome g K _ _ _ p hg
  · rw [mirrorfs_symlink_eq]; exact dual_outcome g K _ _ _ p hg
  · rw [mirrorfs_rename_zero_eq]; exact dual_outcome g K _ _ _ p hg
  · rw [mirrorfs_chmod_eq]; exact dual_outcome g K _ _ _ p hg
  · rw [mirrorfs_chown_eq]; exact dual_outcome g K _ _ _ p hg
  · rw [mirrorfs_utimens_eq]; exact dual_outcome g K _ _ _ p hg
  · intro hslot hfd1 hfd2
    exact write_handle_outcome g K path buf size offset f fd2 p hg hslot hfd1 hfd2
  · intro hfd1 hfd2
    exact write_fresh_outcome g K path buf size offset p hg hfd1 hfd2

/-- C1 at a concrete input: over `demoKernel`, an access check returns 0 and
a two-byte write through handle 5 returns 2. -/
theorem status_and_write_fail_fast_witness :
    demoGlobals.abort_on_difference ≠ 0
    ∧ (mirrorfs_access demoGlobals demoKernel "/a".toList 4 openedProc).1 =
        Outcome.ret 0
    ∧ (mirrorfs_write demoGlobals demoKernel "/a".toList "hi".toList 2 0
        (some { flags := 1, fh := 5 }) openedProc).1 = Outcome.ret 2 := by
  have h := status_and_write_fail_fast demoGlobals demoKernel openedProc (by decide)
    "/a".toList [] [] "hi".toList 4 0 0 0 0 2 ((0, 0), (0, 0))
    { flags := 1, fh := 5 } 6
  refine ⟨by decide, ?_, ?_⟩
  · rw [h.1]; decide
  · rw [h.2.2.2.2.2.2.2.2.1 (initial_set_get 5 6 (by decide)) (by decide) (by decide)]
    decide

/-! ## C2: a descriptor on one side only -/

section Descriptors
variable {σ : Type}

theorem open_asymmetric (g : Globals) (K : Kernel σ) (path : CStr) (p : Proc σ)
    (h : ¬ ((observe2 K (Syscall.openat g.mntfd1 (safe_path path) p.fi.flags none)
          (Syscall.openat g.mntfd2 (safe_path path) p.fi.flags none) p.os).1.res = -1 ↔
        (observe2 K (Syscall.openat g.mntfd1 (safe_path path) p.fi.flags none)
          (Syscall.openat g.mntfd2 (safe_path path) p.fi.flags none) p.os).2.res = -1)) :
    (mirrorfs_open g K path p).1 = Outcome.abort
    ∧ (mirrorfs_open g K path p).2.fi = p.fi
    ∧ (mirrorfs_open g K path p).2.mirror_fds = p.mirror_fds := by
  simp only [observe2] at h
  simp only [mirrorfs_open, LOG_bind, getFi_bind, setErrno_bind, call_bind,
    getErrno_bind, ABORT_IF_INCONSISTENT_FD_bind, logIf_os, logIf_fi, h, if_false,
    logged_fi, logged_mirror_fds, logIf_mirror_fds, and_self]

theorem create_asymmetric (g : Globals) (K : Kernel σ) (path : CStr) (mode : Nat)
    (p : Proc σ)
    (h : ¬ ((observe2 K
          (Syscall.openat g.mntfd1 (safe_path path) p.fi.flags (some mode))
          (Syscall.openat g.mntfd2 (safe_path path) p.fi.flags (some mode))
          p.os).1.res = -1 ↔
        (observe2 K
          (Syscall.openat g.mntfd1 (safe_path path) p.fi.flags (some mode))
          (Syscall.openat g.mntfd2 (safe_path path) p.fi.flags (some mode))
          p.os).2.res = -1)) :
    (mirrorfs_create g K path mode p).1 = Outcome.abort
    ∧ (mirrorfs_create g K path mode p).2.fi = p.fi
    ∧ (mirrorfs_create g K path mode p).2.mirror_fds = p.mirror_fds := by
  simp only [observe2] at h
  simp only [mirrorfs_create, LOG_bind, getFi_bind, setErrno_bind, call_bind,
    getErrno_bind, ABORT_IF_INCONSISTENT_FD_bind, logIf_os, logIf_fi, h, if_false,
    logged_fi, logged_mirror_fds, logIf_mirror_fds, and_self]

end Descriptors

/-- C2. For open and for create, whatever the value of `abort_on_difference`:
when exactly one of the two `openat` results is -1, the call ends in `abort`
(it does not return), the record `*fi` still holds what it held on entry (no
handle was stored) and `mirror_fds` is unchanged (no correlation entry was
written). -/
theorem open_create_one_sided_aborts {σ : Type} (g : Globals) (K : Kernel σ)
    (path : CStr) (mode : Nat) (p : Proc σ) :
    (¬ ((observe2 K (Syscall.openat g.mntfd1 (safe_path path) p.fi.flags none)
          (Syscall.openat g.mntfd2 (safe_path path) p.fi.flags none) p.os).1.res = -1 ↔
        (observe2 K (Syscall.openat g.mntfd1 (safe_path path) p.fi.flags none)
          (Syscall.openat g.mntfd2 (safe_path path) p.fi.flags none) p.os).2.res = -1) →
      (mirrorfs_open g K path p).1 = Outcome.abort
      ∧ (mirrorfs_open g K path p).2.fi = p.fi
      ∧ (mirrorfs_open g K path p).2.mirror_fds = p.mirror_fds)
    ∧ (¬ ((observe2 K
          (Syscall.openat g.mntfd1 (safe_path path) p.fi.flags (some mode))
          (Syscall.openat g.mntfd2 (safe_path path) p.fi.flags (some mode))
          p.os).1.res = -1 ↔
        (observe2 K
          (Syscall.openat g.mntfd1 (safe_path path) p.fi.flags (some mode))
          (Syscall.openat g.mntfd2 (safe_path path) p.fi.flags (some mode))
          p.os).2.res = -1) →
      (mirrorfs_create g K path mode p).1 = Outcome.abort
      ∧ (mirrorfs_create g K path mode p).2.fi = p.fi
      ∧ (mirrorfs_create g K path mode p).2.mirror_fds = p.mirror_fds) :=
  ⟨open_asymmetric g K path p, create_asymmetric g K path mode p⟩

/-- C2 at a concrete input: the primary opens descriptor 5, the mirror fails;
with `abort_on_difference` set to 0, open and create still abort and leave
`*fi` and `mirror_fds` as they were. -/
theorem open_create_one_sided_aborts_witness :
    ((mirrorfs_open { demoGlobals with abort_on_difference := 0 } asymKernel
        "/a".toList (startProc ())).1 = Outcome.abort
      ∧ (mirrorfs_open { demoGlobals with abort_on_difference := 0 } asymKernel
        "/a".toList (startProc ())).2.fi = { flags := 0, fh := 0 }
      ∧ (mirrorfs_open { demoGlobals with abort_on_difference := 0 } asymKernel
        "/a".toList (startProc ())).2.mirror_fds = initial_mirror_fds)
    ∧ ((mirrorfs_create { demoGlobals with abort_on_difference := 0 } asymKernel
        "/a".toList 420 (startProc ())).1 = Outcome.abort
      ∧ (mirrorfs_create { demoGlobals with abort_on_difference := 0 } asymKernel
        "/a".toList 420 (startProc ())).2.fi = { flags := 0, fh := 0 }
      ∧ (mirrorfs_create { demoGlobals with abort_on_difference := 0 } asymKernel
        "/a".toList 420 (startProc ())).2.mirror_fds = initial_mirror_fds) :=
  ⟨(open_create_one_sided_aborts { demoGlobals with abort_on_difference := 0 }
      asymKernel "/a".toList 420 (startProc ())).1 (by decide),
   (open_create_one_sided_aborts { demoGlobals with abort_on_difference := 0 }
      asymKernel "/a".toList 420 (startProc ())).2 (by decide)⟩

/-! ## C3: attribute queries -/

section Getattr

theorem toLong_nat_inj (a b : Nat) (ha : a < 2 ^ 64) (hb : b < 2 ^ 64) :
    toLong a = toLong b ↔ a = b := by
  unfold toLong
  constructor
  · intro h
    have ha1 : (a : Int) < 18446744073709551616 := by exact_mod_cast ha
    have hb1 : (b : Int) < 18446744073709551616 := by exact_mod_cast hb
    norm_num at h
    omega
  · intro h; rw [h]

theorem toLong_int_inj (a b : Int) (ha : -2 ^ 63 ≤ a) (ha2 : a < 2 ^ 63)
    (hb : -2 ^ 63 ≤ b) (hb2 : b < 2 ^ 63) :
    toLong a = toLong b ↔ a = b := by
  unfold toLong
  constructor
  · intro h
    norm_num at h ha ha2 hb hb2
    omega
  · intro h; rw [h]

/-- The comparisons of `mirrorfs_getattr` once both `fstatat` calls have
succeeded with the records `s1` and `s2`, under fail-fast. -/
theorem getattr_both_ok {σ : Type} (g : Globals) (K : Kernel σ) (path : CStr)
    (stbuf : Stat) (p : Proc σ) (hg : g.abort_on_difference ≠ 0)
    (h1 : (K (Syscall.fstatat g.mntfd1 (safe_path path) AT_SYMLINK_NOFOLLOW) p.os).1.res = 0)
    (h2 : (K (Syscall.fstatat g.mntfd2 (safe_path path) AT_SYMLINK_NOFOLLOW)
      (K (Syscall.fstatat g.mntfd1 (safe_path path) AT_SYMLINK_NOFOLLOW) p.os).2).1.res = 0)
    (he : (K (Syscall.fstatat g.mntfd1 (safe_path path) AT_SYMLINK_NOFOLLOW) p.os).1.err =
      (K (Syscall.fstatat g.mntfd2 (safe_path path) AT_SYMLINK_NOFOLLOW)
        (K (Syscall.fstatat g.mntfd1 (safe_path path) AT_SYMLINK_NOFOLLOW) p.os).2).1.err)
    (hw1 : (K (Syscall.fstatat g.mntfd1 (safe_path path) AT_SYMLINK_NOFOLLOW) p.os).1.st.wf)
    (hw2 : (K (Syscall.fstatat g.mntfd2 (safe_path path) AT_SYMLINK_NOFOLLOW)
      (K (Syscall.fstatat g.mntfd1 (safe_path path) AT_SYMLINK_NOFOLLOW) p.os).2).1.st.wf) :
    (statsDiverge
        (K (Syscall.fstatat g.mntfd1 (safe_path path) AT_SYMLINK_NOFOLLOW) p.os).1.st
        (K (Syscall.fstatat g.mntfd2 (safe_path path) AT_SYMLINK_NOFOLLOW)
          (K (Syscall.fstatat g.mntfd1 (safe_path path) AT_SYMLINK_NOFOLLOW) p.os).2).1.st →
      (mirrorfs_getattr g K path stbuf p).1 = Outcome.abort)
    ∧ (¬ statsDiverge
        (K (Syscall.fstatat g.mntfd1 (safe_path path) AT_SYMLINK_NOFOLLOW) p.os).1.st
        (K (Syscall.fstatat g.mntfd2 (safe_path path) AT_SYMLINK_NOFOLLOW)
          (K (Syscall.fstatat g.mntfd1 (safe_path path) AT_SYMLINK_NOFOLLOW) p.os).2).1.st →
      (mirrorfs_getattr g K path stbuf p).1 = Outcome.ret (0,
        (K (Syscall.fstatat g.mntfd1 (safe_path path) AT_SYMLINK_NOFOLLOW) p.os).1.st)) := by
  simp only [mirrorfs_getattr]
  rw [LOG_bind, setErrno_bind, call_bind, getErrno_bind, setErrno_bind, call_bind,
    getErrno_bind, ABORT_IF_NOT_EQUAL_bind]
  simp only [errno_after, logIf_os]
  generalize Syscall.fstatat g.mntfd1 (safe_path path) AT_SYMLINK_NOFOLLOW = c1 at *
  generalize Syscall.fstatat g.mntfd2 (safe_path path) AT_SYMLINK_NOFOLLOW = c2 at *
  generalize K c1 p.os = r1 at *
  generalize K c2 r1.2 = r2 at *
  rw [if_pos (h1.trans h2.symm), ABORT_IF_NOT_EQUAL_bind, if_pos he, ite_run,
    if_neg (by rw [h1]; decide), pure_bind_run]
  simp only [h1, h2, if_true]
  generalize r1.1.st = s1 at *
  generalize r2.1.st = s2 at *
  obtain ⟨m1, n1, u1, g1, z1, z1b⟩ := hw1
  obtain ⟨m2, n2, u2, g2, z2, z2b⟩ := hw2
  have em := toLong_nat_inj s1.st_mode s2.st_mode (by omega) (by omega)
  have en := toLong_nat_inj s1.st_nlink s2.st_nlink n1 n2
  have eu := toLong_nat_inj s1.st_uid s2.st_uid (by omega) (by omega)
  have eg := toLong_nat_inj s1.st_gid s2.st_gid (by omega) (by omega)
  have ez := toLong_int_inj s1.st_size s2.st_size z1 z1b z2 z2b
  rw [ite_run]
  by_cases hs : s1 = s2
  · rw [if_neg (not_not.mpr hs)]
    subst hs
    exact ⟨fun hd => by simp [statsDiverge] at hd, fun _ => rfl⟩
  rw [if_pos hs, ABORT_IF_NOT_EQUAL_bind]
  by_cases hm : s1.st_mode = s2.st_mode
  swap
  · rw [if_neg (mt em.mp hm), if_pos hg]
    exact ⟨fun _ => rfl, fun hd => absurd (Or.inl hm) hd⟩
  rw [if_pos (em.mpr hm), ABORT_IF_NOT_EQUAL_bind]
  by_cases hn : s1.st_nlink = s2.st_nlink
  swap
  · rw [if_neg (mt en.mp hn), if_pos hg]
    exact ⟨fun _ => rfl, fun hd => absurd (Or.inr (Or.inl hn)) hd⟩
  rw [if_pos (en.mpr hn), ABORT_IF_NOT_EQUAL_bind]
  by_cases hu : s1.st_uid = s2.st_uid
  swap
  · rw [if_neg (mt eu.mp hu), if_pos hg]
    exact ⟨fun _ => rfl, fun hd => absurd (Or.inr (Or.inr (Or.inl hu))) hd⟩
  rw [if_pos (eu.mpr hu), ABORT_IF_NOT_EQUAL_bind]
  by_cases hgid : s1.st_gid = s2.st_gid
  swap
  · rw [if_neg (mt eg.mp hgid), if_pos hg]
    exact ⟨fun _ => rfl, fun hd => absurd (Or.inr (Or.inr (Or.inr (Or.inl hgid)))) hd⟩
  rw [if_pos (eg.mpr hgid), ite_run]
  cases hdir : S_ISDIR s1.st_mode
  · rw [if_pos (by simp), ABORT_IF_NOT_EQUAL_bind]
    by_cases hz : s1.st_size = s2.st_size
    · rw [if_pos (ez.mpr hz)]
      refine ⟨fun hd => ?_, fun _ => rfl⟩
      rcases hd with h | h | h | h | ⟨_, h⟩
      · exact absurd hm h
      · exact absurd hn h
      · exact absurd hu h
      · exact absurd hgid h
      · exact absurd hz h
    · rw [if_neg (mt ez.mp hz), if_pos hg]
      exact ⟨fun _ => rfl,
        fun hd => absurd (Or.inr (Or.inr (Or.inr (Or.inr ⟨hdir, hz⟩)))) hd⟩
  · rw [if_neg (by simp)]
    refine ⟨fun hd => ?_, fun _ => rfl⟩
    rcases hd with h | h | h | h | ⟨h, _⟩
    · exact absurd hm h
    · exact absurd hn h
    · exact absurd hu h
    · exact absurd hgid h
    · rw [hdir] at h
      exact Bool.noConfusion h

end Getattr

/-- C3. Under fail-fast, when both `fstatat` calls succeed (return 0, leaving
the same `errno`) with the records s1 (primary) and s2 (mirror), whose fields
are in the range of their C types: the query aborts if s1 and s2 differ in
mode, link count, uid or gid, or s1 is not a directory and the sizes differ;
otherwise it returns 0 and hands the caller s1.  No other field (device,
inode, rdev, block size, block count, timestamps, the size of a directory)
enters the condition. -/
theorem getattr_aborts_iff_compared_fields_differ {σ : Type} (g : Globals)
    (K : Kernel σ) (path : CStr) (stbuf : Stat) (p : Proc σ)
    (hg : g.abort_on_difference ≠ 0)
    (h1 : (observe2 K (Syscall.fstatat g.mntfd1 (safe_path path) AT_SYMLINK_NOFOLLOW)
      (Syscall.fstatat g.mntfd2 (safe_path path) AT_SYMLINK_NOFOLLOW) p.os).1.res = 0)
    (h2 : (observe2 K (Syscall.fstatat g.mntfd1 (safe_path path) AT_SYMLINK_NOFOLLOW)
      (Syscall.fstatat g.mntfd2 (safe_path path) AT_SYMLINK_NOFOLLOW) p.os).2.res = 0)
    (he : (observe2 K (Syscall.fstatat g.mntfd1 (safe_path path) AT_SYMLINK_NOFOLLOW)
        (Syscall.fstatat g.mntfd2 (safe_path path) AT_SYMLINK_NOFOLLOW) p.os).1.err =
      (observe2 K (Syscall.fstatat g.mntfd1 (safe_path path) AT_SYMLINK_NOFOLLOW)
        (Syscall.fstatat g.mntfd2 (safe_path path) AT_SYMLINK_NOFOLLOW) p.os).2.err)
    (hw1 : (observe2 K (Syscall.fstatat g.mntfd1 (safe_path path) AT_SYMLINK_NOFOLLOW)
      (Syscall.fstatat g.mntfd2 (safe_path path) AT_SYMLINK_NOFOLLOW) p.os).1.st.wf)
    (hw2 : (observe2 K (Syscall.fstatat g.mntfd1 (safe_path path) AT_SYMLINK_NOFOLLOW)
      (Syscall.fstatat g.mntfd2 (safe_path path) AT_SYMLINK_NOFOLLOW) p.os).2.st.wf) :
    (statsDiverge
        (observe2 K (Syscall.fstatat g.mntfd1 (safe_path path) AT_SYMLINK_NOFOLLOW)
          (Syscall.fstatat g.mntfd2 (safe_path path) AT_SYMLINK_NOFOLLOW) p.os).1.st
        (observe2 K (Syscall.fstatat g.mntfd1 (safe_path path) AT_SYMLINK_NOFOLLOW)
          (Syscall.fstatat g.mntfd2 (safe_path path) AT_SYMLINK_NOFOLLOW) p.os).2.st →
      (mirrorfs_getattr g K path stbuf p).1 = Outcome.abort)
    ∧ (¬ statsDiverge
        (observe2 K (Syscall.fstatat g.mntfd1 (safe_path path) AT_SYMLINK_NOFOLLOW)
          (Syscall.fstatat g.mntfd2 (safe_path path) AT_SYMLINK_NOFOLLOW) p.os).1.st
        (observe2 K (Syscall.fstatat g.mntfd1 (safe_path path) AT_SYMLINK_NOFOLLOW)
          (Syscall.fstatat g.mntfd2 (safe_path path) AT_SYMLINK_NOFOLLOW) p.os).2.st →
      (mirrorfs_getattr g K path stbuf p).1 = Outcome.ret (0,
        (observe2 K (Syscall.fstatat g.mntfd1 (safe_path path) AT_SYMLINK_NOFOLLOW)
          (Syscall.fstatat g.mntfd2 (safe_path path) AT_SYMLINK_NOFOLLOW) p.os).1.st)) :=
  getattr_both_ok g K path stbuf p hg h1 h2 he hw1 hw2

/-- C3 at concrete inputs: a regular file of 5 bytes whose mirror copy has
another inode number and 5 bytes is reported with the primary's record; when
the mirror copy has 4 bytes the query aborts. -/
theorem getattr_aborts_iff_compared_fields_differ_witness :
    (mirrorfs_getattr demoGlobals (statKernel 5) "/a/b.txt".toList Stat.zero
        (startProc ())).1 = Outcome.ret (0, sampleStat 11 5)
    ∧ (mirrorfs_getattr demoGlobals (statKernel 4) "/a/b.txt".toList Stat.zero
        (startProc ())).1 = Outcome.abort :=
  ⟨(getattr_aborts_iff_compared_fields_differ demoGlobals (statKernel 5)
      "/a/b.txt".toList Stat.zero (startProc ()) (by decide) (by decide) (by decide)
      (by decide) (by unfold Stat.wf; decide) (by unfold Stat.wf; decide)).2
      (by unfold statsDiverge; decide),
   (getattr_aborts_iff_compared_fields_differ demoGlobals (statKernel 4)
      "/a/b.txt".toList Stat.zero (startProc ()) (by decide) (by decide) (by decide)
      (by decide) (by unfold Stat.wf; decide) (by unfold Stat.wf; decide)).1
      (by unfold statsDiverge; decide)⟩

/-! ## C4: reading through a handle -/

section Read
variable {σ : Type}

/-- Under fail-fast, the closed form of a read through a handle whose two
descriptors are valid. -/
theorem read_handle_outcome (g : Globals) (K : Kernel σ) (path buf heap : CStr)
    (size : Nat) (offset : Int) (f : FuseFileInfo) (fd2 : Int) (p : Proc σ)
    (hg : g.abort_on_difference ≠ 0)
    (hslot : p.mirror_fds[f.fh]? = some fd2) (hfd1 : toInt32 f.fh ≠ -1)
    (hfd2 : fd2 ≠ -1) :
    (mirrorfs_read g K path buf size offset (some f) heap p).1 =
      readVerdict (observe2 K (Syscall.pread (toInt32 f.fh) size offset)
        (Syscall.pread fd2 size offset) p.os) buf heap := by
  have hs : (logIf g "mirrorfs_read" p).mirror_fds[f.fh]? = some fd2 := by
    rw [logIf_mirror_fds]; exact hslot
  simp only [mirrorfs_read, LOG_bind, descriptors_some_run _ _ _ _ _ _ _ _ hs]
  rw [ite_run, if_neg (not_or.mpr ⟨hfd1, hfd2⟩), pure_bind_run, setErrno_bind, call_bind,
    getErrno_bind, setErrno_bind, call_bind, getErrno_bind]
  simp only [errno_after, logIf_os, readVerdict, observe2]
  generalize Syscall.pread (toInt32 f.fh) size offset = c1
  generalize Syscall.pread fd2 size offset = c2
  generalize K c1 p.os = r1
  generalize K c2 r1.2 = r2
  rw [ABORT_IF_NOT_EQUAL_bind]
  by_cases hr : r1.1.res = r2.1.res
  · rw [if_pos hr, ABORT_IF_NOT_EQUAL_bind]
    by_cases he : r1.1.err = r2.1.err
    · rw [if_pos he, if_pos (And.intro hr he), ite_run]
      by_cases h1 : r1.1.res = -1
      · rw [if_pos h1, if_pos h1, he]
        simp only [h1, if_true]
        rfl
      · have h2 : r2.1.res ≠ -1 := fun h => h1 (hr.trans h)
        rw [if_neg h1, if_neg h1]
        simp only [h1, h2, if_false]
        rw [ite_run]
        by_cases hm : memcmp_ne (store buf r1.1.data) (store heap r2.1.data) r1.1.res = true
        · rw [if_pos hm, if_pos hm]
          rfl
        · rw [if_neg hm, if_neg hm]
          rfl
    · rw [if_neg he, if_pos hg, if_neg (fun h => he h.2)]
  · rw [if_neg hr, if_pos hg, if_neg (fun h => hr h.1)]

/-- Whatever the policy, a read through a handle aborts when the two stores
return the same count and `memcmp` finds a difference. -/
theorem read_handle_mismatch (g : Globals) (K : Kernel σ) (path buf heap : CStr)
    (size : Nat) (offset : Int) (f : FuseFileInfo) (fd2 : Int) (p : Proc σ)
    (hslot : p.mirror_fds[f.fh]? = some fd2) (hfd1 : toInt32 f.fh ≠ -1)
    (hfd2 : fd2 ≠ -1)
    (hr : (observe2 K (Syscall.pread (toInt32 f.fh) size offset)
        (Syscall.pread fd2 size offset) p.os).1.res =
      (observe2 K (Syscall.pread (toInt32 f.fh) size offset)
        (Syscall.pread fd2 size offset) p.os).2.res)
    (h1 : (observe2 K (Syscall.pread (toInt32 f.fh) size offset)
        (Syscall.pread fd2 size offset) p.os).1.res ≠ -1)
    (hm : memcmp_ne
        (store buf (observe2 K (Syscall.pread (toInt32 f.fh) size offset)
          (Syscall.pread fd2 size offset) p.os).1.data)
        (store heap (observe2 K (Syscall.pread (toInt32 f.fh) size offset)
          (Syscall.pread fd2 size offset) p.os).2.data)
        (observe2 K (Syscall.pread (toInt32 f.fh) size offset)
          (Syscall.pread fd2 size offset) p.os).1.res = true) :
    (mirrorfs_read g K path buf size offset (some f) heap p).1 = Outcome.abort := by
  have hs : (logIf g "mirrorfs_read" p).mirror_fds[f.fh]? = some fd2 := by
    rw [logIf_mirror_fds]; exact hslot
  simp only [observe2] at hr h1 hm
  simp only [mirrorfs_read, LOG_bind, descriptors_some_run _ _ _ _ _ _ _ _ hs]
  rw [ite_run, if_neg (not_or.mpr ⟨hfd1, hfd2⟩), pure_bind_run, setErrno_bind, call_bind,
    getErrno_bind, setErrno_bind, call_bind, getErrno_bind]
  simp only [errno_after, logIf_os]
  generalize Syscall.pread (toInt32 f.fh) size offset = c1 at *
  generalize Syscall.pread fd2 size offset = c2 at *
  generalize K c1 p.os = r1 at *
  generalize K c2 r1.2 = r2 at *
  have h2 : r2.1.res ≠ -1 := fun h => h1 (hr.trans h)
  rw [ABORT_IF_NOT_EQUAL_bind, if_pos hr, ABORT_IF_NOT_EQUAL_bind]
  simp only [h1, h2, if_false]
  by_cases he : r1.1.err = r2.1.err
  · rw [if_pos he, ite_run, if_pos hm]
    rfl
  · rw [if_neg he]
    by_cases hg : g.abort_on_difference = 0
    · rw [if_neg (not_not.mpr hg), ite_run, if_pos hm]
      rfl
    · rw [if_pos hg]

end Read

theorem toU64_of_count (n : Int) (h0 : 0 ≤ n) (h1 : n < 2 ^ 31) : toU64 n = n.toNat := by
  unfold toU64
  have hn : n % 2 ^ 64 = n := Int.emod_eq_of_lt h0 (by norm_num at h1 ⊢; omega)
  rw [hn]

/-- The first `res` bytes of a buffer into which a well-formed `pread` stored
its bytes are those bytes. -/
theorem take_store (buf : CStr) (o : Obs) (hw : o.wfRead) (h : o.res ≠ -1) :
    (store buf o.data).take (toU64 o.res) = o.data := by
  obtain ⟨h0, h1, hl⟩ := hw.2 h
  rw [toU64_of_count _ h0 h1]
  exact List.take_left' hl

/-- C4. For a read through a handle whose primary and mirror descriptors are
both valid (not -1), with `pread` answering either -1 and a positive error
code or a count and that many bytes: (1) under fail-fast, if the read returns
n >= 0 with the caller's buffer b, then both stores returned n, the first n
bytes of the mirror equal the first n bytes of the primary, and the first n
bytes of b are the primary's; (2) under fail-fast, when counts, error codes
and bytes agree the read does return the primary's count; (3) whatever the
value of `abort_on_difference`, when the two stores return the same count
n >= 0 and different bytes the process aborts. -/
theorem read_returns_agreed_bytes {σ : Type} (g : Globals) (K : Kernel σ)
    (path buf heap : CStr) (size : Nat) (offset : Int) (f : FuseFileInfo) (fd2 : Int)
    (p : Proc σ)
    (hslot : p.mirror_fds[f.fh]? = some fd2) (hfd1 : toInt32 f.fh ≠ -1)
    (hfd2 : fd2 ≠ -1)
    (hw1 : (observe2 K (Syscall.pread (toInt32 f.fh) size offset)
      (Syscall.pread fd2 size offset) p.os).1.wfRead)
    (hw2 : (observe2 K (Syscall.pread (toInt32 f.fh) size offset)
      (Syscall.pread fd2 size offset) p.os).2.wfRead) :
    (g.abort_on_difference ≠ 0 → ∀ (n : Int) (b : CStr),
      (mirrorfs_read g K path buf size offset (some f) heap p).1 = Outcome.ret (n, b) →
      0 ≤ n →
        (observe2 K (Syscall.pread (toInt32 f.fh) size offset)
          (Syscall.pread fd2 size offset) p.os).1.res = n
        ∧ (observe2 K (Syscall.pread (toInt32 f.fh) size offset)
          (Syscall.pread fd2 size offset) p.os).2.res = n
        ∧ (observe2 K (Syscall.pread (toInt32 f.fh) size offset)
            (Syscall.pread fd2 size offset) p.os).2.data.take n.toNat =
          (observe2 K (Syscall.pread (toInt32 f.fh) size offset)
            (Syscall.pread fd2 size offset) p.os).1.data.take n.toNat
        ∧ b.take n.toNat =
          (observe2 K (Syscall.pread (toInt32 f.fh) size offset)
            (Syscall.pread fd2 size offset) p.os).1.data.take n.toNat)
    ∧ (g.abort_on_difference ≠ 0 →
      (observe2 K (Syscall.pread (toInt32 f.fh) size offset)
          (Syscall.pread fd2 size offset) p.os).1.res =
        (observe2 K (Syscall.pread (toInt32 f.fh) size offset)
          (Syscall.pread fd2 size offset) p.os).2.res →
      (observe2 K (Syscall.pread (toInt32 f.fh) size offset)
          (Syscall.pread fd2 size offset) p.os).1.err =
        (observe2 K (Syscall.pread (toInt32 f.fh) size offset)
          (Syscall.pread fd2 size offset) p.os).2.err →
      (observe2 K (Syscall.pread (toInt32 f.fh) size offset)
          (Syscall.pread fd2 size offset) p.os).1.res ≠ -1 →
      (observe2 K (Syscall.pread (toInt32 f.fh) size offset)
          (Syscall.pread fd2 size offset) p.os).1.data =
        (observe2 K (Syscall.pread (toInt32 f.fh) size offset)
          (Syscall.pread fd2 size offset) p.os).2.data →
      (mirrorfs_read g K path buf size offset (some f) heap p).1 =
        Outcome.ret
          ((observe2 K (Syscall.pread (toInt32 f.fh) size offset)
            (Syscall.pread fd2 size offset) p.os).1.res,
           store buf (observe2 K (Syscall.pread (toInt32 f.fh) size offset)
            (Syscall.pread fd2 size offset) p.os).1.data))
    ∧ ((observe2 K (Syscall.pread (toInt32 f.fh) size offset)
          (Syscall.pread fd2 size offset) p.os).1.res =
        (observe2 K (Syscall.pread (toInt32 f.fh) size offset)
          (Syscall.pread fd2 size offset) p.os).2.res →
      0 ≤ (observe2 K (Syscall.pread (toInt32 f.fh) size offset)
          (Syscall.pread fd2 size offset) p.os).1.res →
      (observe2 K (Syscall.pread (toInt32 f.fh) size offset)
          (Syscall.pread fd2 size offset) p.os).1.data ≠
        (observe2 K (Syscall.pread (toInt32 f.fh) size offset)
          (Syscall.pread fd2 size offset) p.os).2.data →
      (mirrorfs_read g K path buf size offset (some f) heap p).1 = Outcome.abort) := by
  generalize ho : observe2 K (Syscall.pread (toInt32 f.fh) size offset)
    (Syscall.pread fd2 size offset) p.os = o at hw1 hw2 ⊢
  refine ⟨fun hg n b hret hn => ?_, fun hg hr he h1 hd => ?_, fun hr h0 hd => ?_⟩
  · rw [read_handle_outcome g K path buf heap size offset f fd2 p hg hslot hfd1 hfd2, ho]
      at hret
    unfold readVerdict at hret
    by_cases hre : o.1.res = o.2.res ∧ o.1.err = o.2.err
    · rw [if_pos hre] at hret
      by_cases h1 : o.1.res = -1
      · rw [if_pos h1] at hret
        have hneg : -o.1.err = n := congrArg Prod.fst (Outcome.ret.inj hret)
        have hpos := hw1.1 h1
        omega
      · have h2 : o.2.res ≠ -1 := fun h => h1 (hre.1.trans h)
        rw [if_neg h1] at hret
        by_cases hm : memcmp_ne (store buf o.1.data) (store heap o.2.data) o.1.res = true
        · rw [if_pos hm] at hret
          exact Outcome.noConfusion hret
        · rw [if_neg hm] at hret
          have hn1 : o.1.res = n := congrArg Prod.fst (Outcome.ret.inj hret)
          have hb : store buf o.1.data = b := congrArg Prod.snd (Outcome.ret.inj hret)
          have hm2 : (store buf o.1.data).take (toU64 o.1.res) =
              (store heap o.2.data).take (toU64 o.1.res) := by
            simpa [memcmp_ne] using hm
          have t1 := take_store buf o.1 hw1 h1
          have t2 := take_store heap o.2 hw2 h2
          rw [← hre.1] at t2
          have hdata : o.2.data = o.1.data := by rw [← t2, ← hm2, t1]
          obtain ⟨h0, hlt, _⟩ := hw1.2 h1
          have hu := toU64_of_count _ h0 hlt
          refine ⟨hn1, hre.1 ▸ hn1, by rw [hdata], ?_⟩
          rw [← hb, ← hn1, ← hu, t1]
          exact (List.take_of_length_le (by rw [hu]; exact le_of_eq (hw1.2 h1).2.2)).symm
    · rw [if_neg hre] at hret
      exact Outcome.noConfusion hret
  · rw [read_handle_outcome g K path buf heap size offset f fd2 p hg hslot hfd1 hfd2, ho]
    unfold readVerdict
    have h2 : o.2.res ≠ -1 := fun h => h1 (hr.trans h)
    have hm : ¬ memcmp_ne (store buf o.1.data) (store heap o.2.data) o.1.res = true := by
      have t1 := take_store buf o.1 hw1 h1
      have t2 := take_store heap o.2 hw2 h2
      rw [← hr] at t2
      unfold memcmp_ne
      rw [t1, t2]
      simpa using hd
    rw [if_pos (And.intro hr he), if_neg h1, if_neg hm]
  · have h1 : o.1.res ≠ -1 := by omega
    have h2 : o.2.res ≠ -1 := fun h => h1 (hr.trans h)
    have t1 := take_store buf o.1 hw1 h1
    have t2 := take_store heap o.2 hw2 h2
    rw [← hr] at t2
    have hm : memcmp_ne (store buf o.1.data) (store heap o.2.data) o.1.res = true := by
      unfold memcmp_ne
      rw [t1, t2]
      simpa using hd
    subst ho
    exact read_handle_mismatch g K path buf heap size offset f fd2 p hslot hfd1 hfd2 hr h1 hm

/-- C4 at concrete inputs: over two identical trees a five-byte read through
handle 5 returns 5 with `hello` in the caller's buffer; when the mirror
returns five other bytes the process aborts although `abort_on_difference`
is 0. -/
theorem read_returns_agreed_bytes_witness :
    (mirrorfs_read demoGlobals demoKernel "/a/b.txt".toList (List.replicate 5 'x') 5 0
        (some { flags := 0, fh := 5 }) [] openedProc).1 =
      Outcome.ret (5, "hello".toList)
    ∧ (mirrorfs_read { demoGlobals with abort_on_difference := 0 } garbledKernel
        "/a/b.txt".toList (List.replicate 5 'x') 5 0
        (some { flags := 0, fh := 5 }) [] openedProc).1 = Outcome.abort :=
  ⟨(read_returns_agreed_bytes demoGlobals demoKernel "/a/b.txt".toList
      (List.replicate 5 'x') [] 5 0 { flags := 0, fh := 5 } 6 openedProc
      (initial_set_get 5 6 (by decide)) (by decide) (by decide)
      (by unfold Obs.wfRead; decide) (by unfold Obs.wfRead; decide)).2.1
      (by decide) (by decide) (by decide) (by decide) (by decide),
   (read_returns_agreed_bytes { demoGlobals with abort_on_difference := 0 } garbledKernel
      "/a/b.txt".toList (List.replicate 5 'x') [] 5 0 { flags := 0, fh := 5 } 6 openedProc
      (initial_set_get 5 6 (by decide)) (by decide) (by decide)
      (by unfold Obs.wfRead; decide) (by unfold Obs.wfRead; decide)).2.2
      (by decide) (by decide) (by decide)⟩

/-! ## C5: the correlation table -/

section Keeps
variable {σ α β : Type}

theorem keeps_pure (a : α) : Keeps (pure a : M σ α) := fun _ => rfl

theorem keeps_bind (m : M σ α) (f : α → M σ β) (hm : Keeps m) (hf : ∀ a, Keeps (f a)) :
    Keeps (m >>= f) := by
  intro p
  show (M.bind m f p).2.mirror_fds = p.mirror_fds
  unfold M.bind
  have h := hm p
  rcases hmp : m p with ⟨o, q⟩
  rw [hmp] at h
  cases o with
  | ret a => exact (hf a q).trans h
  | abort => exact h
  | fault => exact h

theorem keeps_ite (c : Prop) [Decidable c] (a b : M σ α) (ha : Keeps a) (hb : Keeps b) :
    Keeps (if c then a else b) := by
  split
  · exact ha
  · exact hb

theorem keeps_getErrno : Keeps (getErrno : M σ Int) := fun _ => rfl
theorem keeps_setErrno (v : Int) : Keeps (setErrno v : M σ Unit) := fun _ => rfl
theorem keeps_call (K : Kernel σ) (c : Syscall) : Keeps (call K c) := fun _ => rfl
theorem keeps_abort : Keeps (abort : M σ α) := fun _ => rfl
theorem keeps_fprintf (func : String) : Keeps (fprintf_stderr func : M σ Unit) :=
  fun _ => rfl

theorem keeps_readSlot (i : Nat) : Keeps (readSlot i : M σ Int) := by
  intro p
  unfold readSlot
  cases p.mirror_fds[i]? <;> rfl

theorem keeps_LOG (g : Globals) (func : String) :
    Keeps (LOG_FUSE_OPERATION g func : M σ Unit) :=
  keeps_ite _ _ _ (keeps_fprintf func) (keeps_pure ())

theorem keeps_ABORT_IF_NOT_EQUAL (g : Globals) (func : String) (x y : Int) :
    Keeps (ABORT_IF_NOT_EQUAL g func x y : M σ Unit) :=
  keeps_ite _ _ _
    (keeps_bind _ _ (keeps_fprintf func) fun _ => keeps_ite _ _ _ keeps_abort (keeps_pure ()))
    (keeps_pure ())

theorem keeps_ABORT_IF_INCONSISTENT_FD (func : String) (fd1 fd2 : Int) :
    Keeps (ABORT_IF_INCONSISTENT_FD func fd1 fd2 : M σ Unit) :=
  keeps_ite _ _ _ (keeps_bind _ _ (keeps_fprintf func) fun _ => keeps_abort) (keeps_pure ())

theorem keeps_descriptors (g : Globals) (K : Kernel σ) (path : CStr) (oflag : Int)
    (fi : Option FuseFileInfo) : Keeps (descriptors g K path oflag fi) := by
  cases fi with
  | none =>
    exact keeps_bind _ _ (keeps_call _ _) fun _ =>
      keeps_bind _ _ (keeps_call _ _) fun _ => keeps_pure _
  | some f => exact keeps_bind _ _ (keeps_readSlot _) fun _ => keeps_pure _

/-- Reading never changes `mirror_fds`. -/
theorem keeps_read (g : Globals) (K : Kernel σ) (path buf : CStr) (size : Nat)
    (offset : Int) (fi : Option FuseFileInfo) (heap : CStr) :
    Keeps (mirrorfs_read g K path buf size offset fi heap) := by
  simp only [mirrorfs_read]
  repeat (first
    | exact keeps_pure _
    | exact keeps_getErrno
    | exact keeps_setErrno _
    | exact keeps_call _ _
    | exact keeps_abort
    | exact keeps_LOG _ _
    | exact keeps_ABORT_IF_NOT_EQUAL _ _ _ _
    | exact keeps_ABORT_IF_INCONSISTENT_FD _ _ _
    | exact keeps_descriptors _ _ _ _ _
    | apply keeps_bind
    | apply keeps_ite
    | intro _)

/-- Writing never changes `mirror_fds`. -/
theorem keeps_write (g : Globals) (K : Kernel σ) (path buf : CStr) (size : Nat)
    (offset : Int) (fi : Option FuseFileInfo) :
    Keeps (mirrorfs_write g K path buf size offset fi) := by
  simp only [mirrorfs_write]
  repeat (first
    | exact keeps_pure _
    | exact keeps_getErrno
    | exact keeps_setErrno _
    | exact keeps_call _ _
    | exact keeps_abort
    | exact keeps_LOG _ _
    | exact keeps_ABORT_IF_NOT_EQUAL _ _ _ _
    | exact keeps_ABORT_IF_INCONSISTENT_FD _ _ _
    | exact keeps_descriptors _ _ _ _ _
    | apply keeps_bind
    | apply keeps_ite
    | intro _)

end Keeps

/-! ## C10: rename with flags -/

/-- C10. A rename with non-zero flags returns `-EINVAL`, performs no system
call (the trace and the operating-system state are those on entry) and leaves
`mirror_fds` unchanged, whatever the paths, the policy and the backing
trees. -/
theorem rename_with_flags_rejected {σ : Type} (g : Globals) (K : Kernel σ)
    (from_ to_ : CStr) (flags : Nat) (p : Proc σ) (hf : flags ≠ 0) :
    (mirrorfs_rename g K from_ to_ flags p).1 = Outcome.ret (-EINVAL)
    ∧ (mirrorfs_rename g K from_ to_ flags p).2.trace = p.trace
    ∧ (mirrorfs_rename g K from_ to_ flags p).2.os = p.os
    ∧ (mirrorfs_rename g K from_ to_ flags p).2.mirror_fds = p.mirror_fds := by
  simp only [mirrorfs_rename, LOG_bind, hf, ne_eq, not_false_eq_true, if_true,
    run_pure, logIf_trace, logIf_os, logIf_mirror_fds, and_self]

/-- C10 at a concrete input: flags 1 (`RENAME_NOREPLACE`) on handle state
`openedProc`. -/
theorem rename_with_flags_rejected_witness :
    (1 : Nat) ≠ 0
    ∧ (mirrorfs_rename demoGlobals demoKernel "/a".toList "/b".toList 1
        openedProc).1 = Outcome.ret (-22)
    ∧ (mirrorfs_rename demoGlobals demoKernel "/a".toList "/b".toList 1
        openedProc).2.trace = []
    ∧ (mirrorfs_rename demoGlobals demoKernel "/a".toList "/b".toList 1
        openedProc).2.mirror_fds = initial_mirror_fds.set 5 6 :=
  ⟨by decide,
   (rename_with_flags_rejected demoGlobals demoKernel "/a".toList "/b".toList 1
      openedProc (by decide)).1,
   (rename_with_flags_rejected demoGlobals demoKernel "/a".toList "/b".toList 1
      openedProc (by decide)).2.1,
   (rename_with_flags_rejected demoGlobals demoKernel "/a".toList "/b".toList 1
      openedProc (by decide)).2.2.2⟩

/-! ## C7: hard links -/

/-- C7. What the code does for every hard-link call: both `linkat` calls name
the primary anchor `mntfd1`, with the paths as delivered; the mirror anchor
`mntfd2` is not called. -/
theorem link_calls_primary_anchor_twice {σ : Type} (g : Globals) (K : Kernel σ)
    (from_ to_ : CStr) (p : Proc σ) :
    (mirrorfs_link g K from_ to_ p).2.trace =
      p.trace ++ [Syscall.linkat g.mntfd1 from_ g.mntfd1 to_ 0,
                  Syscall.linkat g.mntfd1 from_ g.mntfd1 to_ 0] := by
  rw [mirrorfs_link_eq]
  exact dual_trace g K _ _ _ p

/-! ## C8: path normalisation -/

/-- C8. What the code does for `rmdir` of the virtual path `/d`: both
`unlinkat` calls receive the absolute path `/d` itself, not its normalised
form `d`. -/
theorem rmdir_passes_raw_path :
    (mirrorfs_rmdir demoGlobals demoKernel "/d".toList (startProc ())).2.trace =
      [Syscall.unlinkat 3 "/d".toList AT_REMOVEDIR,
       Syscall.unlinkat 4 "/d".toList AT_REMOVEDIR]
    ∧ safe_path "/d".toList = "d".toList
    ∧ safe_path "/d".toList ≠ "/d".toList := by
  decide

/-! ## C6: a descriptor beyond the table -/

/-- C6. What the code does when `openat` yields descriptors 1024 and 1025:
open and create store 1024 in `fi->fh` and then index `mirror_fds` outside its
1024 slots; neither returns an error code. -/
theorem open_beyond_table_faults :
    (mirrorfs_open demoGlobals highFdKernel "/a".toList (startProc ())).1 =
      Outcome.fault
    ∧ (mirrorfs_open demoGlobals highFdKernel "/a".toList (startProc ())).2.fi.fh =
      1024
    ∧ (mirrorfs_create demoGlobals highFdKernel "/a".toList 420 (startProc ())).1 =
      Outcome.fault
    ∧ (mirrorfs_create demoGlobals highFdKernel "/a".toList 420
        (startProc ())).2.fi.fh = 1024 := by
  have hb : initial_mirror_fds.length ≤ toU64 1024 := by
    rw [initial_mirror_fds_length]; decide
  have ho := mirrorfs_open_run demoGlobals highFdKernel "/a".toList (startProc ())
  have hc := mirrorfs_create_run demoGlobals highFdKernel "/a".toList 420 (startProc ())
  rw [openVerdict_fault _ _ _ _ _ (by decide) (by decide) (by decide) hb] at ho hc
  rw [ho, hc]
  exact ⟨rfl, by decide, rfl, by decide⟩

/-! ## C9: reading a symbolic link -/

/-- C9. What the code does when the primary's link target is `aa` and the
mirror's is `bb`: the call returns 0 without aborting, and the caller's buffer
holds the mirror's `bb` followed by NUL. -/
theorem readlink_returns_mirror_target :
    (mirrorfs_readlink demoGlobals linkTargetsKernel "/l".toList
        (List.replicate 8 'x') 8 (startProc ())).1 =
      Outcome.ret (0, ['b', 'b', Char.ofNat 0, 'x', 'x', 'x', 'x', 'x']) := by
  decide

end Mirrorfs
